import Mathlib

/-!
Verification development for the KNOT gateway message-processing core
(`src/msg.c`).  The definitions below are a shallow embedding of the C
source: pure C functions become Lean functions, the process-wide trust
hashmap becomes an explicit association list threaded through the
handlers, and the cloud adapter (`proto_*`, an external collaborator)
becomes a per-PDU oracle record plus an explicit trace of the calls the
core makes into it.  Machine integers are modelled as `Nat`/`Int`; the
two places where 32-bit overflow is observable (`config_is_valid`'s limit
differences) wrap explicitly via `wrap32`.
-/

/-! ### Protocol constants

`knot_protocol.h` / `knot_types.h` belong to the external KNOT protocol
library and are not part of this repository's sources.  Modelled from the
spec: result codes are a shared set with `SUCCESS` and distinct error
values (§7); event flags are `NONE = 0` plus five distinct bits (§4.D);
message types are distinct one-byte tags (§4.A, §6). -/

def KNOT_SUCCESS : Int := 0

def KNOT_ERROR_UNKNOWN : Int := -1

def KNOT_CREDENTIAL_UNAUTHORIZED : Int := -3

def KNOT_INVALID_DATA : Int := -4

def KNOT_REGISTER_INVALID_DEVICENAME : Int := -5

def KNOT_SCHEMA_EMPTY : Int := -6

def KNOT_NO_DATA : Int := -7

def KNOT_EVT_FLAG_NONE : Nat := 0x00

def KNOT_EVT_FLAG_TIME : Nat := 0x01

def KNOT_EVT_FLAG_LOWER_THRESHOLD : Nat := 0x02

def KNOT_EVT_FLAG_UPPER_THRESHOLD : Nat := 0x04

def KNOT_EVT_FLAG_CHANGE : Nat := 0x08

def KNOT_EVT_FLAG_UNREGISTERED : Nat := 0x10

def KNOT_MSG_REGISTER_REQ : Nat := 0x10

def KNOT_MSG_REGISTER_RESP : Nat := 0x11

def KNOT_MSG_UNREGISTER_REQ : Nat := 0x12

def KNOT_MSG_UNREGISTER_RESP : Nat := 0x13

def KNOT_MSG_AUTH_REQ : Nat := 0x14

def KNOT_MSG_AUTH_RESP : Nat := 0x15

def KNOT_MSG_DATA : Nat := 0x20

def KNOT_MSG_DATA_RESP : Nat := 0x21

def KNOT_MSG_CONFIG_RESP : Nat := 0x25

def KNOT_MSG_SCHEMA : Nat := 0x40

def KNOT_MSG_SCHEMA_RESP : Nat := 0x41

def KNOT_MSG_SCHEMA_END : Nat := 0x42

def KNOT_MSG_SCHEMA_END_RESP : Nat := 0x43

/-- `sizeof(knot_msg)`: the output buffer must hold a maximal PDU.
Modelled from the spec (§3: "maximum PDU size fits in a buffer of
`sizeof(knot_msg)` (~128 B)"); only its role as a lower bound on `omtu`
matters in `msg_process`. -/
def KNOT_MSG_SIZE : Nat := 128

/-- Payload length of a `knot_msg_credential` reply: result byte plus
36-byte uuid plus 40-byte token (`sizeof(*message) - sizeof(knot_msg_header)`
in `msg_credential_create`). -/
def KNOT_MSG_CRED_PAYLOAD : Nat := 77

/-- `errno` value used by `msg_process` for structural errors (`-EINVAL`). -/
def EINVAL : Int := 22

/-- Two's-complement wrap of an integer to signed 32 bits.  Models what a
32-bit `int` subtraction in `config_is_valid` actually stores (the
operands are `int32_t`/`uint32_t`, the result an `int`). -/
def wrap32 (z : Int) : Int := (z + 2147483648) % 4294967296 - 2147483648

/-! ### Config entries (`knot_msg_config`) and `config_is_valid` -/

/-- The float-like limit `(integer_part : i32, decimal_part : u32)`
(`knot_value` `.val_f` view). -/
structure knot_value_float where
  value_int : Int
  value_dec : Nat
deriving DecidableEq, Repr

structure knot_config_values where
  event_flags : Nat
  time_sec : Nat
  lower_limit : knot_value_float
  upper_limit : knot_value_float
deriving DecidableEq, Repr

structure knot_msg_config where
  sensor_id : Nat
  values : knot_config_values
deriving DecidableEq, Repr

/-- `l_queue_get_entries`: a NULL queue yields no entries. -/
def l_queue_get_entries {α : Type} (q : Option (List α)) : List α := q.getD []

/-- The event-flag test of `config_is_valid` (msg.c:209-214): reject when
`(flags | KNOT_EVT_FLAG_NONE)` is truthy and no known event bit is set. -/
def event_flags_rejected (f : Nat) : Bool :=
  ((f ||| KNOT_EVT_FLAG_NONE) != 0) &&
    ((f &&& (KNOT_EVT_FLAG_TIME ||| KNOT_EVT_FLAG_LOWER_THRESHOLD |||
        KNOT_EVT_FLAG_UPPER_THRESHOLD ||| KNOT_EVT_FLAG_CHANGE |||
        KNOT_EVT_FLAG_UNREGISTERED)) == 0)

/-- The `time_sec` consistency test of `config_is_valid` (msg.c:222-236). -/
def time_sec_rejected (v : knot_config_values) : Bool :=
  if v.event_flags &&& KNOT_EVT_FLAG_TIME != 0 then v.time_sec == 0
  else decide (v.time_sec > 0)

/-- The threshold-limit test of `config_is_valid` (msg.c:239-261).  The C
code stores `int` differences of `int32_t`/`uint32_t` fields, so both
differences wrap to signed 32 bits. -/
def limits_rejected (v : knot_config_values) : Bool :=
  if v.event_flags &&& (KNOT_EVT_FLAG_LOWER_THRESHOLD |||
      KNOT_EVT_FLAG_UPPER_THRESHOLD) != 0 then
    let diff_int := wrap32 (v.upper_limit.value_int - v.lower_limit.value_int)
    let diff_dec := wrap32 ((v.upper_limit.value_dec : Int) -
        (v.lower_limit.value_dec : Int))
    decide (diff_int < 0) || ((diff_int == 0) && decide (diff_dec ≤ 0))
  else false

/-- Body of the `config_is_valid` scan over the entry list: first failing
check wins, every failure is `KNOT_ERROR_UNKNOWN`. -/
def config_is_valid_list : List knot_msg_config → Int
  | [] => KNOT_SUCCESS
  | c :: rest =>
    if event_flags_rejected c.values.event_flags then KNOT_ERROR_UNKNOWN
    else if time_sec_rejected c.values then KNOT_ERROR_UNKNOWN
    else if limits_rejected c.values then KNOT_ERROR_UNKNOWN
    else config_is_valid_list rest

/-- `config_is_valid` (msg.c:198-265); takes the queue (possibly NULL). -/
def config_is_valid (q : Option (List knot_msg_config)) : Int :=
  config_is_valid_list (l_queue_get_entries q)

/-! ### Schema and data entries -/

structure knot_schema_values where
  type_id : Nat
  unit : Nat
  value_type : Nat
  name : List Nat
deriving DecidableEq, Repr

/-- A schema entry (`knot_msg_schema` body) as stored in the trust lists. -/
structure knot_msg_schema where
  sensor_id : Nat
  values : knot_schema_values
deriving DecidableEq, Repr

/-- `knot_msg_data` body: sensor id plus an opaque `knot_data` payload. -/
structure knot_msg_data where
  sensor_id : Nat
  payload : List Nat
deriving DecidableEq, Repr

/-! ### The trust (session) entity -/

/-- `struct trust` (msg.c:52-62).  Queues that the C code can set to NULL
are `Option (List _)`.  `tag` is a ghost creation stamp standing in for
the heap identity of the C object: `trust_new` hands out a fresh tag and
in-place field mutation preserves it, so "that trust" in the temporal
claims means "the trust with that tag". -/
structure Trust where
  tag : Nat
  refs : Int
  pid : Int
  id : Nat
  rollback : Bool
  uuid : String
  token : String
  schema : Option (List knot_msg_schema)
  schema_tmp : Option (List knot_msg_schema)
  config : Option (List knot_msg_config)
deriving DecidableEq, Repr

/-- `trust_new` (msg.c:93-110): NULL schema/config arguments are replaced
by fresh empty queues; `refs` ends up 1 (`trust_ref` on a zeroed count). -/
def trust_new (tag : Nat) (uuid token : String) (device_id : Nat) (pid : Int)
    (rollback : Bool) (schema : Option (List knot_msg_schema))
    (config : Option (List knot_msg_config)) : Trust :=
  { tag := tag, refs := 1, pid := pid, id := device_id, rollback := rollback,
    uuid := uuid, token := token,
    schema := some (schema.getD []),
    schema_tmp := some [],
    config := some (config.getD []) }

/-- `trust_get_sensor_schema` (msg.c:120-126): `l_queue_find` over the
committed schema; a NULL queue has no entries. -/
def trust_get_sensor_schema (t : Trust) (sensor_id : Nat) :
    Option knot_msg_schema :=
  (l_queue_get_entries t.schema).find? (fun s => s.sensor_id == sensor_id)

/-- `trust_get_sensor_schema_tmp` (msg.c:128-134). -/
def trust_get_sensor_schema_tmp (t : Trust) (sensor_id : Nat) :
    Option knot_msg_schema :=
  (l_queue_get_entries t.schema_tmp).find? (fun s => s.sensor_id == sensor_id)

/-- `trust_sensor_schema_tmp_add` (msg.c:136-143): `l_queue_push_tail`
on a NULL queue is a no-op. -/
def trust_sensor_schema_tmp_add (t : Trust) (s : knot_msg_schema) : Trust :=
  { t with schema_tmp := t.schema_tmp.map (fun l => l ++ [s]) }

/-- `trust_sensor_schema_tmp_free` (msg.c:145-149): destroy staging and
set the queue pointer to NULL. -/
def trust_sensor_schema_tmp_free (t : Trust) : Trust :=
  { t with schema_tmp := none }

/-- `trust_sensor_schema_complete` (msg.c:151-157): the committed schema
becomes the staging queue, staging becomes NULL. -/
def trust_sensor_schema_complete (t : Trust) : Trust :=
  { t with schema := t.schema_tmp, schema_tmp := none }

/-- `l_queue_remove_if` with `config_sensor_id_cmp` (msg.c:872-874):
remove the first entry with the given sensor id. -/
def config_remove_first (sensor_id : Nat) :
    List knot_msg_config → List knot_msg_config
  | [] => []
  | c :: rest =>
    if c.sensor_id = sensor_id then rest
    else c :: config_remove_first sensor_id rest

/-! ### The trust map (`l_hashmap` keyed by the node socket) -/

/-- `trust_map`, made explicit: an association list from connection
handle to trust.  Bucket order inside the hashmap is unobservable to the
properties proved here; insertion is modelled as consing. -/
abbrev TrustMap : Type := List (Int × Trust)

def mapLookup : TrustMap → Int → Option Trust
  | [], _ => none
  | p :: rest, h => if p.1 = h then some p.2 else mapLookup rest h

def mapInsert (m : TrustMap) (h : Int) (t : Trust) : TrustMap := (h, t) :: m

/-- `l_hashmap_remove`: the removed value (if any) and the remaining map. -/
def mapRemove : TrustMap → Int → Option Trust × TrustMap
  | [], _ => (none, [])
  | p :: rest, h =>
    if p.1 = h then (some p.2, rest)
    else
      let r := mapRemove rest h
      (r.1, p :: r.2)

/-- In-place mutation of the trust returned by `mapLookup`: replace the
value of the first entry with this handle. -/
def mapUpdate : TrustMap → Int → Trust → TrustMap
  | [], _, _ => []
  | p :: rest, h, t =>
    if p.1 = h then (p.1, t) :: rest else p :: mapUpdate rest h t

/-! ### The cloud adapter (`proto_*`), as oracle plus call trace -/

/-- Reply credential written by `msg_credential_create`. -/
structure Credential where
  uuid : String
  token : String
deriving DecidableEq, Repr

/-- One call made into the cloud adapter, recorded in arrival order. -/
inductive CloudCall where
  | mknode (name : List Nat) (device_id : Nat)
  | signin (uuid token : String)
  | schemaSubmit (uuid token : String) (list : Option (List knot_msg_schema))
  | rmnode (uuid token : String)
  | pushData (uuid token : String) (sensor_id value_type : Nat)
      (payload : List Nat)
  | pullData (uuid token : String) (sensor_id : Nat)
  | setData (uuid token : String) (sensor_id : Nat)
deriving DecidableEq, Repr

/-- Oracle for the cloud results observed while handling one PDU.  The
`proto_*` functions are outside this repository (§4.F); each field is the
result the cloud would return to the corresponding call. -/
structure CloudResp where
  mknodeResult : Int
  mknodeUuid : String
  mknodeToken : String
  signinResult : Int
  signinSchema : Option (List knot_msg_schema)
  signinConfig : Option (List knot_msg_config)
  schemaResult : Int
  rmnodeResult : Int
  dataResult : Int
deriving DecidableEq, Repr

/-- What a handler returns and does: result code, optional credential
reply, the updated map and tag counter, the cloud calls made, and the
trusts released (`trust_unref` to zero). -/
structure MsgOut where
  result : Int
  cred : Option Credential
  map : TrustMap
  nextTag : Nat
  calls : List CloudCall
  released : List Trust

/-! ### Handlers -/

/-- `msg_unregister` (msg.c:167-189): the trust is removed from the map
before `rmnode` is called; only on success is it also released. -/
def msg_unregister (h : Int) (cloud : CloudResp) (m : TrustMap)
    (nextTag : Nat) : MsgOut :=
  match mapRemove m h with
  | (none, m2) =>
    { result := KNOT_CREDENTIAL_UNAUTHORIZED, cred := none, map := m2,
      nextTag := nextTag, calls := [], released := [] }
  | (some t, m2) =>
    if cloud.rmnodeResult ≠ KNOT_SUCCESS then
      { result := cloud.rmnodeResult, cred := none, map := m2,
        nextTag := nextTag, calls := [CloudCall.rmnode t.uuid t.token],
        released := [] }
    else
      { result := KNOT_SUCCESS, cred := none, map := m2,
        nextTag := nextTag, calls := [CloudCall.rmnode t.uuid t.token],
        released := [t] }

def KNOT_PROTOCOL_DEVICE_NAME_LEN : Nat := 64

def INT32_MAX : Int := 2147483647

/-- `msg_register_has_valid_length` (msg.c:596-601): strictly more than
header (2) plus 64-bit id (8). -/
def msg_register_has_valid_length (ilen : Nat) : Bool := ilen > 2 + 8

/-! The register request view of the input PDU.  The C union `knot_msg`
is modelled as one record carrying the header and each variant body; the
handlers read disjoint fields. -/

structure knot_msg_header where
  type : Nat
  payload_len : Nat
deriving DecidableEq, Repr

structure knot_msg where
  hdr : knot_msg_header
  reg_id : Nat
  reg_devName : List Nat
  auth_uuid : String
  auth_token : String
  schema : knot_msg_schema
  data : knot_msg_data
  item_sensor_id : Nat
deriving DecidableEq, Repr

/-- `msg_register_has_valid_device_name` (msg.c:603-606). -/
def msg_register_has_valid_device_name (kreq : knot_msg) : Bool :=
  kreq.reg_devName.getD 0 0 != 0

/-- `msg_register_get_device_name` (msg.c:609-623): copy at most
`min(payload_len - 8, 63)` bytes into a zeroed buffer; the resulting C
string ends at the first NUL.  (The dispatcher guarantees
`payload_len = ilen - 2 > 8`, so the `Nat` subtraction is exact.) -/
def msg_register_get_device_name (kreq : knot_msg) : List Nat :=
  (kreq.reg_devName.take
      (min (kreq.hdr.payload_len - 8) (KNOT_PROTOCOL_DEVICE_NAME_LEN - 1))).takeWhile
    (fun b => b != 0)

/-- The fall-through of `msg_register` past the trusted-device check
(msg.c:675-695): mknode, signin, build credential, insert a fresh trust
with `rollback = true` and pid `cred.pid ?: INT32_MAX`. -/
def msg_register_fresh (h : Int) (cloud : CloudResp) (credPid : Int)
    (kreq : knot_msg) (m : TrustMap) (nextTag : Nat) : MsgOut :=
  let device_name := msg_register_get_device_name kreq
  let calls1 := [CloudCall.mknode device_name kreq.reg_id]
  if cloud.mknodeResult ≠ KNOT_SUCCESS then
    { result := cloud.mknodeResult, cred := none, map := m,
      nextTag := nextTag, calls := calls1, released := [] }
  else
    let calls2 := calls1 ++ [CloudCall.signin cloud.mknodeUuid cloud.mknodeToken]
    if cloud.signinResult ≠ KNOT_SUCCESS then
      { result := cloud.signinResult, cred := none, map := m,
        nextTag := nextTag, calls := calls2, released := [] }
    else
      let t := trust_new nextTag cloud.mknodeUuid cloud.mknodeToken kreq.reg_id
        (if credPid ≠ 0 then credPid else INT32_MAX) true none none
      { result := KNOT_SUCCESS,
        cred := some ⟨cloud.mknodeUuid, cloud.mknodeToken⟩,
        map := mapInsert m h t, nextTag := nextTag + 1,
        calls := calls2, released := [] }

/-- `msg_register` (msg.c:635-696).  `credPid` is the peer pid resolved
by `get_socket_credentials` for this handle at this moment (0 when the
transport cannot resolve one; on `getsockopt` failure the zeroed `ucred`
also yields 0 and the handler continues). -/
def msg_register (h : Int) (cloud : CloudResp) (credPid : Int)
    (kreq : knot_msg) (ilen : Nat) (m : TrustMap) (nextTag : Nat) : MsgOut :=
  if !msg_register_has_valid_length ilen ||
      !msg_register_has_valid_device_name kreq then
    { result := KNOT_REGISTER_INVALID_DEVICENAME, cred := none, map := m,
      nextTag := nextTag, calls := [], released := [] }
  else
    match mapLookup m h with
    | some t =>
      if kreq.reg_id = t.id ∧ t.pid = credPid then
        { result := KNOT_SUCCESS, cred := some ⟨t.uuid, t.token⟩, map := m,
          nextTag := nextTag, calls := [], released := [] }
      else msg_register_fresh h cloud credPid kreq m nextTag
    | none => msg_register_fresh h cloud credPid kreq m nextTag

/-- `msg_auth` (msg.c:698-747): sign in, require a schema, silently drop
an invalid config, insert a trust with `rollback = false`. -/
def msg_auth (h : Int) (cloud : CloudResp) (auth_uuid auth_token : String)
    (m : TrustMap) (nextTag : Nat) : MsgOut :=
  match mapLookup m h with
  | some _ =>
    { result := KNOT_SUCCESS, cred := none, map := m, nextTag := nextTag,
      calls := [], released := [] }
  | none =>
    let calls := [CloudCall.signin auth_uuid auth_token]
    if cloud.signinResult ≠ KNOT_SUCCESS then
      { result := cloud.signinResult, cred := none, map := m,
        nextTag := nextTag, calls := calls, released := [] }
    else if cloud.signinSchema = none then
      { result := KNOT_SCHEMA_EMPTY, cred := none, map := m,
        nextTag := nextTag, calls := calls, released := [] }
    else
      let config := if config_is_valid cloud.signinConfig ≠ KNOT_SUCCESS
        then none else cloud.signinConfig
      let t := trust_new nextTag auth_uuid auth_token 0 0 false
        cloud.signinSchema config
      { result := KNOT_SUCCESS, cred := none, map := mapInsert m h t,
        nextTag := nextTag + 1, calls := calls, released := [] }

/-- The in-place mutations `msg_schema` performs on the looked-up trust
before any cloud call (msg.c:767, 782-783): clear `rollback`, then stage
the entry unless its sensor id is already staged. -/
def trust_schema_stage (t : Trust) (s : knot_msg_schema) : Trust :=
  let t1 : Trust := { t with rollback := false }
  if (trust_get_sensor_schema_tmp t1 s.sensor_id).isSome then t1
  else trust_sensor_schema_tmp_add t1 s

/-- `msg_schema` (msg.c:749-804). -/
def msg_schema (h : Int) (cloud : CloudResp) (s : knot_msg_schema)
    (eof : Bool) (m : TrustMap) (nextTag : Nat) : MsgOut :=
  match mapLookup m h with
  | none =>
    { result := KNOT_CREDENTIAL_UNAUTHORIZED, cred := none, map := m,
      nextTag := nextTag, calls := [], released := [] }
  | some t =>
    let t2 := trust_schema_stage t s
    if !eof then
      { result := KNOT_SUCCESS, cred := none, map := mapUpdate m h t2,
        nextTag := nextTag, calls := [], released := [] }
    else
      let calls := [CloudCall.schemaSubmit t2.uuid t2.token t2.schema_tmp]
      if cloud.schemaResult ≠ KNOT_SUCCESS then
        { result := cloud.schemaResult, cred := none,
          map := mapUpdate m h (trust_sensor_schema_tmp_free t2),
          nextTag := nextTag, calls := calls, released := [] }
      else
        { result := KNOT_SUCCESS, cred := none,
          map := mapUpdate m h (trust_sensor_schema_complete t2),
          nextTag := nextTag, calls := calls, released := [] }

/-- `msg_data` (msg.c:806-856).  `sv` is `knot_schema_is_valid` from the
external protocol library: a pure compatibility table
`(type_id, value_type, unit) → err`. -/
def msg_data (sv : Nat → Nat → Nat → Int) (h : Int) (cloud : CloudResp)
    (kmdata : knot_msg_data) (m : TrustMap) (nextTag : Nat) : MsgOut :=
  match mapLookup m h with
  | none =>
    { result := KNOT_CREDENTIAL_UNAUTHORIZED, cred := none, map := m,
      nextTag := nextTag, calls := [], released := [] }
  | some t =>
    match trust_get_sensor_schema t kmdata.sensor_id with
    | none =>
      { result := KNOT_INVALID_DATA, cred := none, map := m,
        nextTag := nextTag, calls := [], released := [] }
    | some sch =>
      if sv sch.values.type_id sch.values.value_type sch.values.unit ≠ 0 then
        { result := KNOT_INVALID_DATA, cred := none, map := m,
          nextTag := nextTag, calls := [], released := [] }
      else
        { result := cloud.dataResult, cred := none, map := m,
          nextTag := nextTag,
          calls := [CloudCall.pushData t.uuid t.token kmdata.sensor_id
              sch.values.value_type kmdata.payload,
            CloudCall.pullData t.uuid t.token kmdata.sensor_id],
          released := [] }

/-- `msg_config_resp` (msg.c:858-880): acknowledge a config by removing
the first matching entry from the trust's config queue. -/
def msg_config_resp (h : Int) (item_sensor_id : Nat) (m : TrustMap)
    (nextTag : Nat) : MsgOut :=
  match mapLookup m h with
  | none =>
    { result := KNOT_CREDENTIAL_UNAUTHORIZED, cred := none, map := m,
      nextTag := nextTag, calls := [], released := [] }
  | some t =>
    let t2 : Trust :=
      { t with config := t.config.map (config_remove_first item_sensor_id) }
    { result := KNOT_SUCCESS, cred := none, map := mapUpdate m h t2,
      nextTag := nextTag, calls := [], released := [] }

/-- `msg_setdata_resp` (msg.c:886-944): like `msg_data` but clears the
pending set-data marker first. -/
def msg_setdata_resp (sv : Nat → Nat → Nat → Int) (h : Int)
    (cloud : CloudResp) (kmdata : knot_msg_data) (m : TrustMap)
    (nextTag : Nat) : MsgOut :=
  match mapLookup m h with
  | none =>
    { result := KNOT_CREDENTIAL_UNAUTHORIZED, cred := none, map := m,
      nextTag := nextTag, calls := [], released := [] }
  | some t =>
    match trust_get_sensor_schema t kmdata.sensor_id with
    | none =>
      { result := KNOT_INVALID_DATA, cred := none, map := m,
        nextTag := nextTag, calls := [], released := [] }
    | some sch =>
      if sv sch.values.type_id sch.values.value_type sch.values.unit ≠ 0 then
        { result := KNOT_INVALID_DATA, cred := none, map := m,
          nextTag := nextTag, calls := [], released := [] }
      else
        let calls := [CloudCall.setData t.uuid t.token kmdata.sensor_id,
          CloudCall.pushData t.uuid t.token kmdata.sensor_id
            sch.values.value_type kmdata.payload]
        if cloud.dataResult ≠ KNOT_SUCCESS then
          { result := cloud.dataResult, cred := none, map := m,
            nextTag := nextTag, calls := calls, released := [] }
        else
          { result := KNOT_SUCCESS, cred := none, map := m,
            nextTag := nextTag, calls := calls, released := [] }

/-! ### The dispatcher `msg_process` and the PDU state machine -/

/-- What one `msg_process` call returns and does.  `ret` is the C return
value: negative for structural errors (the transport sends nothing),
`0` for "no octets to be transmitted", otherwise the reply byte count;
`rtype`/`result`/`cred` describe the reply PDU written into the output
buffer. -/
structure ProcOut where
  ret : Int
  rtype : Nat
  result : Int
  cred : Option Credential
  map : TrustMap
  nextTag : Nat
  calls : List CloudCall
  released : List Trust

/-- The structural-error exit of `msg_process`: `-EINVAL`, nothing sent,
nothing changed. -/
def procEinval (m : TrustMap) (nextTag : Nat) : ProcOut :=
  { ret := -EINVAL, rtype := 0, result := KNOT_INVALID_DATA, cred := none,
    map := m, nextTag := nextTag, calls := [], released := [] }

/-- Reply assembly at the end of `msg_process` (msg.c:1019-1024): set the
response type and result; the payload is the single result byte unless a
credential was written (`msg_credential_create` set payload_len then). -/
def procReply (rtype : Nat) (o : MsgOut) : ProcOut :=
  let plen := match o.cred with
    | some _ => KNOT_MSG_CRED_PAYLOAD
    | none => 1
  { ret := ((2 + plen : Nat) : Int), rtype := rtype, result := o.result,
    cred := o.cred, map := o.map, nextTag := o.nextTag, calls := o.calls,
    released := o.released }

/-- The "no octets to be transmitted" exits (CONFIG_RESP, DATA_RESP). -/
def procSilent (o : MsgOut) : ProcOut :=
  { ret := 0, rtype := 0, result := o.result, cred := none, map := o.map,
    nextTag := o.nextTag, calls := o.calls, released := o.released }

/-- `msg_process` (msg.c:946-1025).  `sv` is the external
`knot_schema_is_valid` table, `credPid` the peer pid the transport
resolves for this handle at this moment. -/
def msg_process (sv : Nat → Nat → Nat → Int) (h : Int) (cloud : CloudResp)
    (credPid : Int) (kreq : knot_msg) (ilen omtu : Nat) (m : TrustMap)
    (nextTag : Nat) : ProcOut :=
  if omtu < KNOT_MSG_SIZE then procEinval m nextTag
  else if ilen < 2 then procEinval m nextTag
  else if ilen ≠ 2 + kreq.hdr.payload_len then procEinval m nextTag
  else if kreq.hdr.type = KNOT_MSG_REGISTER_REQ then
    procReply KNOT_MSG_REGISTER_RESP
      (msg_register h cloud credPid kreq ilen m nextTag)
  else if kreq.hdr.type = KNOT_MSG_UNREGISTER_REQ then
    procReply KNOT_MSG_UNREGISTER_RESP (msg_unregister h cloud m nextTag)
  else if kreq.hdr.type = KNOT_MSG_DATA then
    procReply KNOT_MSG_DATA_RESP (msg_data sv h cloud kreq.data m nextTag)
  else if kreq.hdr.type = KNOT_MSG_AUTH_REQ then
    procReply KNOT_MSG_AUTH_RESP
      (msg_auth h cloud kreq.auth_uuid kreq.auth_token m nextTag)
  else if kreq.hdr.type = KNOT_MSG_SCHEMA ∨
      kreq.hdr.type = KNOT_MSG_SCHEMA_END then
    let eof := kreq.hdr.type = KNOT_MSG_SCHEMA_END
    procReply (if eof then KNOT_MSG_SCHEMA_END_RESP else KNOT_MSG_SCHEMA_RESP)
      (msg_schema h cloud kreq.schema eof m nextTag)
  else if kreq.hdr.type = KNOT_MSG_CONFIG_RESP then
    procSilent (msg_config_resp h kreq.item_sensor_id m nextTag)
  else if kreq.hdr.type = KNOT_MSG_DATA_RESP then
    procSilent (msg_setdata_resp sv h cloud kreq.data m nextTag)
  else
    { ret := ((2 + 1 : Nat) : Int), rtype := 0, result := KNOT_INVALID_DATA,
      cred := none, map := m, nextTag := nextTag, calls := [],
      released := [] }

/-- The dispatcher state: the trust map plus the ghost tag counter. -/
structure SState where
  map : TrustMap
  nextTag : Nat

/-- One incoming PDU together with everything the environment supplies
while it is handled: the handle, the transport-resolved peer pid, the
cloud oracle, and the raw lengths. -/
structure StepIn where
  h : Int
  cloud : CloudResp
  credPid : Int
  kreq : knot_msg
  ilen : Nat
  omtu : Nat

/-- One transition of the state machine: process one PDU. -/
def stepState (sv : Nat → Nat → Nat → Int) (s : SState) (i : StepIn) :
    SState :=
  let o := msg_process sv i.h i.cloud i.credPid i.kreq i.ilen i.omtu
    s.map s.nextTag
  { map := o.map, nextTag := o.nextTag }

/-- `msg_start` (msg.c:1027-1032): the empty trust map. -/
def msg_start : SState := { map := [], nextTag := 0 }

/-- Process a sequence of PDUs in arrival order. -/
def runSteps (sv : Nat → Nat → Nat → Int) (s : SState)
    (l : List StepIn) : SState :=
  l.foldl (stepState sv) s

/-! ### Basic lemmas about the trust map -/

lemma mapLookup_mem {m : TrustMap} {h : Int} {t : Trust}
    (hl : mapLookup m h = some t) : (h, t) ∈ m := by
  induction m with
  | nil => simp [mapLookup] at hl
  | cons p rest ih =>
    by_cases hp : p.1 = h
    · simp [mapLookup, hp] at hl
      subst hl
      rw [← hp]
      exact List.mem_cons_self _ _
    · simp [mapLookup, hp] at hl
      exact List.mem_cons_of_mem _ (ih hl)

lemma mapLookup_mapInsert_self (m : TrustMap) (h : Int) (t : Trust) :
    mapLookup (mapInsert m h t) h = some t := by
  simp [mapInsert, mapLookup]

lemma mapLookup_mapUpdate_self {m : TrustMap} {h : Int} {t0 : Trust}
    (hl : mapLookup m h = some t0) (t : Trust) :
    mapLookup (mapUpdate m h t) h = some t := by
  induction m with
  | nil => simp [mapLookup] at hl
  | cons p rest ih =>
    by_cases hp : p.1 = h
    · simp [mapUpdate, mapLookup, hp]
    · simp [mapLookup, mapUpdate, hp] at hl ⊢
      exact ih hl

lemma mem_mapUpdate {m : TrustMap} {h : Int} {t : Trust} {p : Int × Trust}
    (hp : p ∈ mapUpdate m h t) : p = (h, t) ∨ p ∈ m := by
  induction m with
  | nil => simp [mapUpdate] at hp
  | cons q rest ih =>
    by_cases hq : q.1 = h
    · simp [mapUpdate, hq] at hp
      rcases hp with hp | hp
      · left; exact hp
      · right; exact List.mem_cons_of_mem _ hp
    · simp [mapUpdate, hq] at hp
      rcases hp with hp | hp
      · right; rw [hp]; exact List.mem_cons_self _ _
      · rcases ih hp with h1 | h1
        · left; exact h1
        · right; exact List.mem_cons_of_mem _ h1

lemma mapRemove_fst (m : TrustMap) (h : Int) :
    (mapRemove m h).1 = mapLookup m h := by
  induction m with
  | nil => simp [mapRemove, mapLookup]
  | cons p rest ih =>
    by_cases hp : p.1 = h
    · simp [mapRemove, mapLookup, hp]
    · simp [mapRemove, mapLookup, hp, ih]

lemma mapRemove_snd_of_lookup_none {m : TrustMap} {h : Int}
    (hl : mapLookup m h = none) : (mapRemove m h).2 = m := by
  induction m with
  | nil => simp [mapRemove]
  | cons p rest ih =>
    by_cases hp : p.1 = h
    · simp [mapLookup, hp] at hl
    · simp [mapLookup, hp] at hl
      simp [mapRemove, hp, ih hl]

lemma mapRemove_snd_sublist (m : TrustMap) (h : Int) :
    (mapRemove m h).2.Sublist m := by
  induction m with
  | nil => simp [mapRemove]
  | cons p rest ih =>
    by_cases hp : p.1 = h
    · simp [mapRemove, hp]
    · simp [mapRemove, hp]
      exact ih

/-- Abbreviation used in the claim statements: the union of the five
defined event bits of §4.D. -/
def KNOT_EVT_FLAGS_ALL : Nat :=
  KNOT_EVT_FLAG_TIME ||| KNOT_EVT_FLAG_LOWER_THRESHOLD |||
    KNOT_EVT_FLAG_UPPER_THRESHOLD ||| KNOT_EVT_FLAG_CHANGE |||
    KNOT_EVT_FLAG_UNREGISTERED

lemma event_flags_rejected_iff (f : Nat) :
    event_flags_rejected f = true ↔ f ≠ 0 ∧ f &&& KNOT_EVT_FLAGS_ALL = 0 := by
  simp [event_flags_rejected, KNOT_EVT_FLAGS_ALL, KNOT_EVT_FLAG_NONE,
    Bool.and_eq_true, bne_iff_ne, beq_iff_eq]

/-! ### Claim C1 -/

/-- The config entry refuting C1: `event_flags = 0x21` sets the TIME bit
together with the undefined bit `0x20`; `time_sec = 1` keeps the other
checks quiet. -/
def c1_cfg : knot_msg_config := ⟨1, ⟨0x21, 1, ⟨0, 0⟩, ⟨0, 0⟩⟩⟩

/-- Claim C1 is false on the code: the entry's `event_flags` is not a
subset of the defined set (bit `0x20` is set), yet `config_is_valid`
returns `KNOT_SUCCESS`, not the claimed `KNOT_ERROR_UNKNOWN` — the C test
only rejects flags that contain *no* defined bit at all. -/
theorem c1_counterexample :
    ¬ (c1_cfg.values.event_flags &&& KNOT_EVT_FLAGS_ALL =
        c1_cfg.values.event_flags) ∧
    config_is_valid (some [c1_cfg]) = KNOT_SUCCESS ∧
    config_is_valid (some [c1_cfg]) ≠ KNOT_ERROR_UNKNOWN := by
  refine ⟨by decide, by decide, by decide⟩

lemma config_is_valid_some (l : List knot_msg_config) :
    config_is_valid (some l) = config_is_valid_list l := rfl

/-- Claim C1, amended to what `config_is_valid` actually checks: a list
containing an entry whose `event_flags` is nonzero and has *no* bit
inside `{TIME, LOWER_THRESHOLD, UPPER_THRESHOLD, CHANGE, UNREGISTERED}`
is rejected with `KNOT_ERROR_UNKNOWN`; and the flag check passes every
entry whose `event_flags` is zero or has at least one bit inside the set
(even if bits outside the set are also set). -/
theorem c1_event_flags_amended :
    (∀ l : List knot_msg_config,
      (∃ c ∈ l, c.values.event_flags ≠ 0 ∧
        c.values.event_flags &&& KNOT_EVT_FLAGS_ALL = 0) →
      config_is_valid (some l) = KNOT_ERROR_UNKNOWN) ∧
    (∀ f : Nat, f = 0 ∨ f &&& KNOT_EVT_FLAGS_ALL ≠ 0 →
      event_flags_rejected f = false) := by
  constructor
  · intro l hex
    rw [config_is_valid_some]
    induction l with
    | nil => simp at hex
    | cons c rest ih =>
      rcases hex with ⟨c0, hc0, hflags⟩
      by_cases h1 : event_flags_rejected c.values.event_flags
      · simp [config_is_valid_list, h1]
      · by_cases h2 : time_sec_rejected c.values
        · simp [config_is_valid_list, h1, h2]
        · by_cases h3 : limits_rejected c.values
          · simp [config_is_valid_list, h1, h2, h3]
          · simp only [config_is_valid_list, h1, h2, h3, if_false,
              Bool.false_eq_true]
            rcases List.mem_cons.mp hc0 with hc | hc
            · exfalso
              exact h1 ((event_flags_rejected_iff _).mpr (hc ▸ hflags))
            · exact ih ⟨c0, hc, hflags⟩
  · intro f hf
    rw [← Bool.not_eq_true, event_flags_rejected_iff]
    tauto

/-- Witness for the amended C1 at concrete inputs: flags `0x20` (no
defined bit) are rejected, flags `0x03` (TIME and LOWER, a subset) pass
the flag check. -/
theorem c1_event_flags_amended_witness :
    config_is_valid (some [⟨1, ⟨0x20, 0, ⟨0, 0⟩, ⟨0, 0⟩⟩⟩]) =
      KNOT_ERROR_UNKNOWN ∧
    event_flags_rejected 0x03 = false :=
  ⟨c1_event_flags_amended.1 _ ⟨⟨1, ⟨0x20, 0, ⟨0, 0⟩, ⟨0, 0⟩⟩⟩, by decide⟩,
    c1_event_flags_amended.2 0x03 (by decide)⟩

/-! ### Claim C7 -/

lemma wrap32_eq_self {z : Int} (h1 : -2147483648 ≤ z)
    (h2 : z < 2147483648) : wrap32 z = z := by
  unfold wrap32
  rw [Int.emod_eq_of_lt (by omega) (by omega)]
  omega

/-- The config entry refuting C7: `upper.int - lower.int` is
`2147483648`, which overflows the 32-bit `int` difference to
`-2147483648`. -/
def c7_cfg : knot_msg_config :=
  ⟨1, ⟨KNOT_EVT_FLAG_LOWER_THRESHOLD, 0, ⟨-1, 0⟩, ⟨2147483647, 0⟩⟩⟩

/-- Claim C7 is false on the code: here `(upper.int, upper.dec)` is
strictly greater than `(lower.int, lower.dec)` lexicographically — so the
claim requires acceptance — yet `config_is_valid` rejects the entry,
because the C `int` difference `upper.int - lower.int` wraps to a
negative value. -/
theorem c7_counterexample :
    c7_cfg.values.lower_limit.value_int <
      c7_cfg.values.upper_limit.value_int ∧
    c7_cfg.values.event_flags &&& (KNOT_EVT_FLAG_LOWER_THRESHOLD |||
      KNOT_EVT_FLAG_UPPER_THRESHOLD) ≠ 0 ∧
    config_is_valid (some [c7_cfg]) = KNOT_ERROR_UNKNOWN := by
  refine ⟨by decide, by decide, by decide⟩

lemma limits_rejected_char (v : knot_config_values)
    (hth : v.event_flags &&& (KNOT_EVT_FLAG_LOWER_THRESHOLD |||
      KNOT_EVT_FLAG_UPPER_THRESHOLD) ≠ 0)
    (hint1 : -2147483648 ≤ v.upper_limit.value_int - v.lower_limit.value_int)
    (hint2 : v.upper_limit.value_int - v.lower_limit.value_int < 2147483648)
    (hdec1 : -2147483648 ≤ (v.upper_limit.value_dec : Int) -
      (v.lower_limit.value_dec : Int))
    (hdec2 : (v.upper_limit.value_dec : Int) -
      (v.lower_limit.value_dec : Int) < 2147483648) :
    limits_rejected v = true ↔
      ¬ (v.lower_limit.value_int < v.upper_limit.value_int ∨
        (v.lower_limit.value_int = v.upper_limit.value_int ∧
          v.lower_limit.value_dec < v.upper_limit.value_dec)) := by
  have hc : (v.event_flags &&& (KNOT_EVT_FLAG_LOWER_THRESHOLD |||
      KNOT_EVT_FLAG_UPPER_THRESHOLD) != 0) = true := by
    simpa [bne_iff_ne] using hth
  simp only [limits_rejected, hc, if_true]
  rw [wrap32_eq_self hint1 hint2, wrap32_eq_self hdec1 hdec2]
  simp only [Bool.or_eq_true, Bool.and_eq_true, decide_eq_true_eq,
    beq_iff_eq]
  omega

/-- Claim C7, amended: the C code compares the *wrapped 32-bit* `int`
differences, so the claimed lexicographic characterisation holds exactly
when both differences fit in signed 32 bits.  Under that proviso, for an
entry with a threshold flag whose flag and time checks pass, the
validator accepts the single-entry list iff `(upper.int, upper.dec)` is
lexicographically strictly greater than `(lower.int, lower.dec)`, and
every rejection is `KNOT_ERROR_UNKNOWN`. -/
theorem c7_limits_amended (c : knot_msg_config)
    (hth : c.values.event_flags &&& (KNOT_EVT_FLAG_LOWER_THRESHOLD |||
      KNOT_EVT_FLAG_UPPER_THRESHOLD) ≠ 0)
    (hf : event_flags_rejected c.values.event_flags = false)
    (ht : time_sec_rejected c.values = false)
    (hint1 : -2147483648 ≤ c.values.upper_limit.value_int -
      c.values.lower_limit.value_int)
    (hint2 : c.values.upper_limit.value_int -
      c.values.lower_limit.value_int < 2147483648)
    (hdec1 : -2147483648 ≤ (c.values.upper_limit.value_dec : Int) -
      (c.values.lower_limit.value_dec : Int))
    (hdec2 : (c.values.upper_limit.value_dec : Int) -
      (c.values.lower_limit.value_dec : Int) < 2147483648) :
    (config_is_valid (some [c]) = KNOT_SUCCESS ↔
      (c.values.lower_limit.value_int < c.values.upper_limit.value_int ∨
        (c.values.lower_limit.value_int = c.values.upper_limit.value_int ∧
          c.values.lower_limit.value_dec < c.values.upper_limit.value_dec))) ∧
    (config_is_valid (some [c]) = KNOT_SUCCESS ∨
      config_is_valid (some [c]) = KNOT_ERROR_UNKNOWN) := by
  have hchar := limits_rejected_char c.values hth hint1 hint2 hdec1 hdec2
  have hval : config_is_valid (some [c]) =
      (if limits_rejected c.values then KNOT_ERROR_UNKNOWN
        else KNOT_SUCCESS) := by
    rw [config_is_valid_some]
    simp [config_is_valid_list, hf, ht]
  by_cases hb : limits_rejected c.values
  · rw [hval, if_pos hb]
    exact ⟨⟨fun habs => absurd habs (by decide),
      fun hl => absurd hl (hchar.mp hb)⟩, Or.inr rfl⟩
  · rw [hval, if_neg hb]
    exact ⟨⟨fun _ => not_not.mp (fun hn => hb (hchar.mpr hn)),
      fun _ => rfl⟩, Or.inl rfl⟩

/-- Witness for the amended C7: with `lower = (0,0)`, `upper = (1,0)` the
differences are tiny and the entry is accepted exactly because
`(1,0) > (0,0)`. -/
theorem c7_limits_amended_witness :
    (config_is_valid (some [(⟨1, ⟨2, 0, ⟨0, 0⟩, ⟨1, 0⟩⟩⟩ : knot_msg_config)]) =
        KNOT_SUCCESS ↔
      ((0 : Int) < 1 ∨ ((0 : Int) = 1 ∧ (0 : Nat) < 0))) ∧
    (config_is_valid (some [(⟨1, ⟨2, 0, ⟨0, 0⟩, ⟨1, 0⟩⟩⟩ : knot_msg_config)]) =
        KNOT_SUCCESS ∨
      config_is_valid (some [(⟨1, ⟨2, 0, ⟨0, 0⟩, ⟨1, 0⟩⟩⟩ : knot_msg_config)]) =
        KNOT_ERROR_UNKNOWN) :=
  c7_limits_amended ⟨1, ⟨2, 0, ⟨0, 0⟩, ⟨1, 0⟩⟩⟩ (by decide) (by decide)
    (by decide) (by decide) (by decide) (by decide) (by decide)

/-! ### Claims C2 and C10: schema staging and commit -/

lemma msg_schema_eq_of_lookup {h : Int} {m : TrustMap} {t : Trust}
    (hl : mapLookup m h = some t) (cloud : CloudResp) (s : knot_msg_schema)
    (eof : Bool) (nextTag : Nat) :
    msg_schema h cloud s eof m nextTag =
      (if !eof then
        { result := KNOT_SUCCESS, cred := none,
          map := mapUpdate m h (trust_schema_stage t s),
          nextTag := nextTag, calls := [], released := [] }
      else if cloud.schemaResult ≠ KNOT_SUCCESS then
        { result := cloud.schemaResult, cred := none,
          map := mapUpdate m h
            (trust_sensor_schema_tmp_free (trust_schema_stage t s)),
          nextTag := nextTag,
          calls := [CloudCall.schemaSubmit (trust_schema_stage t s).uuid
            (trust_schema_stage t s).token
            (trust_schema_stage t s).schema_tmp],
          released := [] }
      else
        { result := KNOT_SUCCESS, cred := none,
          map := mapUpdate m h
            (trust_sensor_schema_complete (trust_schema_stage t s)),
          nextTag := nextTag,
          calls := [CloudCall.schemaSubmit (trust_schema_stage t s).uuid
            (trust_schema_stage t s).token
            (trust_schema_stage t s).schema_tmp],
          released := [] }) := by
  unfold msg_schema
  rw [hl]

lemma trust_schema_stage_schema (t : Trust) (s : knot_msg_schema) :
    (trust_schema_stage t s).schema = t.schema := by
  by_cases hc : (trust_get_sensor_schema_tmp
      { t with rollback := false } s.sensor_id).isSome <;>
    simp [trust_schema_stage, trust_sensor_schema_tmp_add, hc]

/-- Claim C2 (confirmed): processing SCHEMA_END on a trusted connection
first stages the entry; if the cloud rejects the submission the committed
schema is exactly what it was before and staging holds no entries, and
the cloud's code is the result; if the cloud accepts, the committed
schema becomes the full staged list and staging is cleared.  There is no
third outcome, so no partial commit. -/
theorem c2_schema_end_atomicity (h : Int) (cloud : CloudResp)
    (s : knot_msg_schema) (m : TrustMap) (nextTag : Nat) (t : Trust)
    (hl : mapLookup m h = some t) :
    (trust_schema_stage t s).schema = t.schema ∧
    (cloud.schemaResult ≠ KNOT_SUCCESS →
      (msg_schema h cloud s true m nextTag).result = cloud.schemaResult ∧
      (mapLookup (msg_schema h cloud s true m nextTag).map h).map
        Trust.schema = some t.schema ∧
      (mapLookup (msg_schema h cloud s true m nextTag).map h).map
        (fun x => l_queue_get_entries x.schema_tmp) = some []) ∧
    (cloud.schemaResult = KNOT_SUCCESS →
      (msg_schema h cloud s true m nextTag).result = KNOT_SUCCESS ∧
      (mapLookup (msg_schema h cloud s true m nextTag).map h).map
        Trust.schema = some (trust_schema_stage t s).schema_tmp ∧
      (mapLookup (msg_schema h cloud s true m nextTag).map h).map
        Trust.schema_tmp = some none) := by
  have heq := msg_schema_eq_of_lookup hl cloud s true nextTag
  refine ⟨trust_schema_stage_schema t s, ?_, ?_⟩
  · intro hres
    have heq2 : msg_schema h cloud s true m nextTag =
        { result := cloud.schemaResult, cred := none,
          map := mapUpdate m h
            (trust_sensor_schema_tmp_free (trust_schema_stage t s)),
          nextTag := nextTag,
          calls := [CloudCall.schemaSubmit (trust_schema_stage t s).uuid
            (trust_schema_stage t s).token
            (trust_schema_stage t s).schema_tmp],
          released := [] } := by
      rw [heq]
      simp [hres]
    refine ⟨?_, ?_, ?_⟩
    · simp only [heq2]
    · simp only [heq2, mapLookup_mapUpdate_self hl]
      simp [trust_sensor_schema_tmp_free, trust_schema_stage_schema]
    · simp only [heq2, mapLookup_mapUpdate_self hl]
      simp [trust_sensor_schema_tmp_free, l_queue_get_entries]
  · intro hres
    have heq2 : msg_schema h cloud s true m nextTag =
        { result := KNOT_SUCCESS, cred := none,
          map := mapUpdate m h
            (trust_sensor_schema_complete (trust_schema_stage t s)),
          nextTag := nextTag,
          calls := [CloudCall.schemaSubmit (trust_schema_stage t s).uuid
            (trust_schema_stage t s).token
            (trust_schema_stage t s).schema_tmp],
          released := [] } := by
      rw [heq]
      simp [hres]
    refine ⟨?_, ?_, ?_⟩
    · simp only [heq2]
    · simp only [heq2, mapLookup_mapUpdate_self hl]
      simp [trust_sensor_schema_complete]
    · simp only [heq2, mapLookup_mapUpdate_self hl]
      simp [trust_sensor_schema_complete]

/-- Witness for C2 on a concrete trust and a cloud that rejects the
submission: the committed schema survives and staging is empty. -/
def c2w_t : Trust := trust_new 0 "uu" "tk" 5 7 true none none

def c2w_cloud : CloudResp := ⟨0, "", "", 0, none, none, -1, 0, 0⟩

def c2w_s : knot_msg_schema := ⟨3, ⟨1, 1, 1, []⟩⟩

theorem c2_schema_end_atomicity_witness :
    (msg_schema 1 c2w_cloud c2w_s true [(1, c2w_t)] 0).result =
      c2w_cloud.schemaResult ∧
    (mapLookup (msg_schema 1 c2w_cloud c2w_s true [(1, c2w_t)] 0).map 1).map
      Trust.schema = some c2w_t.schema ∧
    (mapLookup (msg_schema 1 c2w_cloud c2w_s true [(1, c2w_t)] 0).map 1).map
      (fun x => l_queue_get_entries x.schema_tmp) = some [] :=
  (c2_schema_end_atomicity 1 c2w_cloud c2w_s [(1, c2w_t)] 0 c2w_t
    (by decide)).2.1 (by decide)

lemma msg_schema_noeof_eq {h : Int} {m : TrustMap} {t : Trust}
    (hl : mapLookup m h = some t) (cloud : CloudResp) (s : knot_msg_schema)
    (nextTag : Nat) :
    msg_schema h cloud s false m nextTag =
      { result := KNOT_SUCCESS, cred := none,
        map := mapUpdate m h (trust_schema_stage t s),
        nextTag := nextTag, calls := [], released := [] } := by
  rw [msg_schema_eq_of_lookup hl cloud s false nextTag]
  simp

lemma msg_schema_end_fail_eq {h : Int} {m : TrustMap} {t : Trust}
    {cloud : CloudResp} (hl : mapLookup m h = some t)
    (hres : cloud.schemaResult ≠ KNOT_SUCCESS) (s : knot_msg_schema)
    (nextTag : Nat) :
    msg_schema h cloud s true m nextTag =
      { result := cloud.schemaResult, cred := none,
        map := mapUpdate m h
          (trust_sensor_schema_tmp_free (trust_schema_stage t s)),
        nextTag := nextTag,
        calls := [CloudCall.schemaSubmit (trust_schema_stage t s).uuid
          (trust_schema_stage t s).token (trust_schema_stage t s).schema_tmp],
        released := [] } := by
  rw [msg_schema_eq_of_lookup hl cloud s true nextTag]
  simp [hres]

lemma msg_schema_end_ok_eq {h : Int} {m : TrustMap} {t : Trust}
    {cloud : CloudResp} (hl : mapLookup m h = some t)
    (hres : cloud.schemaResult = KNOT_SUCCESS) (s : knot_msg_schema)
    (nextTag : Nat) :
    msg_schema h cloud s true m nextTag =
      { result := KNOT_SUCCESS, cred := none,
        map := mapUpdate m h
          (trust_sensor_schema_complete (trust_schema_stage t s)),
        nextTag := nextTag,
        calls := [CloudCall.schemaSubmit (trust_schema_stage t s).uuid
          (trust_schema_stage t s).token (trust_schema_stage t s).schema_tmp],
        released := [] } := by
  rw [msg_schema_eq_of_lookup hl cloud s true nextTag]
  simp [hres]

lemma trust_schema_stage_fields (t : Trust) (s : knot_msg_schema) :
    (trust_schema_stage t s).uuid = t.uuid ∧
    (trust_schema_stage t s).token = t.token ∧
    (trust_schema_stage t s).tag = t.tag ∧
    (trust_schema_stage t s).rollback = false := by
  by_cases hc : (trust_get_sensor_schema_tmp
      { t with rollback := false } s.sensor_id).isSome <;>
    simp [trust_schema_stage, trust_sensor_schema_tmp_add, hc]

lemma trust_schema_stage_tmp_none {t : Trust} (s : knot_msg_schema)
    (hnone : t.schema_tmp = none) :
    (trust_schema_stage t s).schema_tmp = none := by
  simp [trust_schema_stage, trust_get_sensor_schema_tmp, l_queue_get_entries,
    hnone, trust_sensor_schema_tmp_add]

/-- Claim C10 (confirmed): every SCHEMA_END on a trust leaves
`schema_tmp` as NULL (not an empty queue); once it is NULL, a further
SCHEMA replies `SUCCESS` without staging anything (the push onto a NULL
queue is a no-op), and a further SCHEMA_END submits the absent (NULL)
list and leaves the committed schema either untouched (cloud failure) or
NULL (cloud success), so no new entries can ever be staged or
committed. -/
theorem c10_schema_staging_null (h : Int) (m : TrustMap) (nextTag : Nat)
    (t : Trust) (cloud : CloudResp) (s : knot_msg_schema)
    (hl : mapLookup m h = some t) :
    ((mapLookup (msg_schema h cloud s true m nextTag).map h).map
      Trust.schema_tmp = some none) ∧
    (t.schema_tmp = none →
      ((msg_schema h cloud s false m nextTag).result = KNOT_SUCCESS ∧
       (mapLookup (msg_schema h cloud s false m nextTag).map h).map
         Trust.schema_tmp = some none) ∧
      ((msg_schema h cloud s true m nextTag).calls =
         [CloudCall.schemaSubmit t.uuid t.token none] ∧
       ((mapLookup (msg_schema h cloud s true m nextTag).map h).map
          Trust.schema = some t.schema ∨
        (mapLookup (msg_schema h cloud s true m nextTag).map h).map
          Trust.schema = some none))) := by
  constructor
  · by_cases hres : cloud.schemaResult = KNOT_SUCCESS
    · simp only [msg_schema_end_ok_eq hl hres s nextTag,
        mapLookup_mapUpdate_self hl]
      simp [trust_sensor_schema_complete]
    · simp only [msg_schema_end_fail_eq hl hres s nextTag,
        mapLookup_mapUpdate_self hl]
      simp [trust_sensor_schema_tmp_free]
  · intro hnone
    have hstage_tmp := trust_schema_stage_tmp_none s hnone
    have hfields := trust_schema_stage_fields t s
    refine ⟨⟨?_, ?_⟩, ?_, ?_⟩
    · simp only [msg_schema_noeof_eq hl cloud s nextTag]
    · simp only [msg_schema_noeof_eq hl cloud s nextTag,
        mapLookup_mapUpdate_self hl]
      simp [hstage_tmp]
    · by_cases hres : cloud.schemaResult = KNOT_SUCCESS
      · simp only [msg_schema_end_ok_eq hl hres s nextTag]
        simp [hfields.1, hfields.2.1, hstage_tmp]
      · simp only [msg_schema_end_fail_eq hl hres s nextTag]
        simp [hfields.1, hfields.2.1, hstage_tmp]
    · by_cases hres : cloud.schemaResult = KNOT_SUCCESS
      · refine Or.inr ?_
        simp only [msg_schema_end_ok_eq hl hres s nextTag,
          mapLookup_mapUpdate_self hl]
        simp [trust_sensor_schema_complete, hstage_tmp]
      · refine Or.inl ?_
        simp only [msg_schema_end_fail_eq hl hres s nextTag,
          mapLookup_mapUpdate_self hl]
        simp [trust_sensor_schema_tmp_free, trust_schema_stage_schema]

/-- Witness for C10: a trust whose staging is already NULL; the second
SCHEMA_END submits the absent list. -/
def c10w_t : Trust :=
  { trust_new 0 "uu" "tk" 5 7 false (some [⟨1, ⟨1, 1, 1, []⟩⟩]) none with
    schema_tmp := none }

theorem c10_schema_staging_null_witness :
    ((mapLookup (msg_schema 1 c2w_cloud c2w_s true [(1, c10w_t)] 0).map 1).map
      Trust.schema_tmp = some none) ∧
    ((msg_schema 1 c2w_cloud c2w_s false [(1, c10w_t)] 0).result =
        KNOT_SUCCESS ∧
      (mapLookup (msg_schema 1 c2w_cloud c2w_s false [(1, c10w_t)] 0).map
        1).map Trust.schema_tmp = some none) ∧
    ((msg_schema 1 c2w_cloud c2w_s true [(1, c10w_t)] 0).calls =
        [CloudCall.schemaSubmit c10w_t.uuid c10w_t.token none] ∧
      ((mapLookup (msg_schema 1 c2w_cloud c2w_s true [(1, c10w_t)] 0).map
          1).map Trust.schema = some c10w_t.schema ∨
       (mapLookup (msg_schema 1 c2w_cloud c2w_s true [(1, c10w_t)] 0).map
          1).map Trust.schema = some none)) := by
  have hmain := c10_schema_staging_null 1 [(1, c10w_t)] 0 c10w_t c2w_cloud
    c2w_s (by decide)
  exact ⟨hmain.1, hmain.2 (by decide)⟩

/-! ### Claim C9: invalid config from the cloud during auth -/

/-- Claim C9 (confirmed): on AUTH_REQ with no trust, a successful signin
with a present schema but an invalid config list still returns
`KNOT_SUCCESS` and inserts a trust with `rollback = false`, the signin
schema, and an empty (non-NULL) config queue. -/
theorem c9_auth_invalid_config (h : Int) (cloud : CloudResp)
    (auth_uuid auth_token : String) (m : TrustMap) (nextTag : Nat)
    (sch : List knot_msg_schema)
    (hl : mapLookup m h = none)
    (hsig : cloud.signinResult = KNOT_SUCCESS)
    (hsch : cloud.signinSchema = some sch)
    (hcfg : config_is_valid cloud.signinConfig ≠ KNOT_SUCCESS) :
    (msg_auth h cloud auth_uuid auth_token m nextTag).result =
      KNOT_SUCCESS ∧
    (mapLookup (msg_auth h cloud auth_uuid auth_token m nextTag).map h).map
      (fun t => (t.rollback, t.config, t.schema)) =
      some (false, some [], some sch) := by
  have heq : msg_auth h cloud auth_uuid auth_token m nextTag =
      { result := KNOT_SUCCESS, cred := none,
        map := mapInsert m h
          (trust_new nextTag auth_uuid auth_token 0 0 false (some sch) none),
        nextTag := nextTag + 1,
        calls := [CloudCall.signin auth_uuid auth_token],
        released := [] } := by
    unfold msg_auth
    rw [hl]
    simp [hsig, hsch, hcfg]
  constructor
  · simp only [heq]
  · simp only [heq, mapLookup_mapInsert_self]
    simp [trust_new]

def c9w_cloud : CloudResp :=
  ⟨0, "", "", 0, some [⟨1, ⟨1, 1, 1, []⟩⟩],
    some [⟨1, ⟨0x20, 0, ⟨0, 0⟩, ⟨0, 0⟩⟩⟩], 0, 0, 0⟩

/-- Witness for C9: signin succeeds, the returned config's only entry has
`event_flags = 0x20` (rejected by the validator), auth still succeeds and
the stored config is the empty queue. -/
theorem c9_auth_invalid_config_witness :
    (msg_auth 1 c9w_cloud "au" "at" [] 0).result = KNOT_SUCCESS ∧
    (mapLookup (msg_auth 1 c9w_cloud "au" "at" [] 0).map 1).map
      (fun t => (t.rollback, t.config, t.schema)) =
      some (false, some [], some [⟨1, ⟨1, 1, 1, []⟩⟩]) :=
  c9_auth_invalid_config 1 c9w_cloud "au" "at" [] 0 _ (by decide) (by decide)
    (by decide) (by decide)

/-! ### Claim C6: unregister -/

lemma mapRemove_eq_of_lookup_some {m : TrustMap} {h : Int} {t : Trust}
    (hl : mapLookup m h = some t) :
    mapRemove m h = (some t, (mapRemove m h).2) := by
  have h1 := mapRemove_fst m h
  rw [hl] at h1
  exact Prod.ext h1 rfl

def c6x_t : Trust := trust_new 0 "uu" "tk" 5 7 false none none

def c6x_cloud : CloudResp := ⟨0, "", "", 0, none, none, 0, -9, 0⟩

/-- Claim C6 is false on the code: `msg_unregister` removes the trust
from the store *before* calling `rmnode` (msg.c:172) and never reinserts
it, so on rmnode failure the cloud's code is returned but the trust is
gone from the store — the claim's "the trust is not removed from the
store" fails on this concrete run. -/
theorem c6_counterexample :
    c6x_cloud.rmnodeResult ≠ KNOT_SUCCESS ∧
    (msg_unregister 1 c6x_cloud [(1, c6x_t)] 0).result =
      c6x_cloud.rmnodeResult ∧
    mapLookup (msg_unregister 1 c6x_cloud [(1, c6x_t)] 0).map 1 = none ∧
    (msg_unregister 1 c6x_cloud [(1, c6x_t)] 0).map = [] := by
  refine ⟨by decide, by decide, by decide, by decide⟩

/-- Claim C6, amended: on UNREGISTER_REQ with a trust present, the trust
is removed from the store unconditionally (before the cloud call), and
`rmnode` is called with its uuid and token; on rmnode success the trust
is additionally released and the reply is `SUCCESS`; on failure the
cloud's code is returned and the (already removed) trust is not
released. -/
theorem c6_unregister_amended (h : Int) (cloud : CloudResp) (m : TrustMap)
    (nextTag : Nat) (t : Trust) (hl : mapLookup m h = some t) :
    (msg_unregister h cloud m nextTag).map = (mapRemove m h).2 ∧
    (msg_unregister h cloud m nextTag).calls =
      [CloudCall.rmnode t.uuid t.token] ∧
    (cloud.rmnodeResult = KNOT_SUCCESS →
      (msg_unregister h cloud m nextTag).result = KNOT_SUCCESS ∧
      (msg_unregister h cloud m nextTag).released = [t]) ∧
    (cloud.rmnodeResult ≠ KNOT_SUCCESS →
      (msg_unregister h cloud m nextTag).result = cloud.rmnodeResult ∧
      (msg_unregister h cloud m nextTag).released = []) := by
  have heq : msg_unregister h cloud m nextTag =
      (if cloud.rmnodeResult ≠ KNOT_SUCCESS then
        { result := cloud.rmnodeResult, cred := none,
          map := (mapRemove m h).2, nextTag := nextTag,
          calls := [CloudCall.rmnode t.uuid t.token], released := [] }
      else
        { result := KNOT_SUCCESS, cred := none, map := (mapRemove m h).2,
          nextTag := nextTag,
          calls := [CloudCall.rmnode t.uuid t.token], released := [t] }) := by
    unfold msg_unregister
    rw [mapRemove_eq_of_lookup_some hl]
  by_cases hres : cloud.rmnodeResult = KNOT_SUCCESS
  · have heq2 : msg_unregister h cloud m nextTag =
        { result := KNOT_SUCCESS, cred := none, map := (mapRemove m h).2,
          nextTag := nextTag,
          calls := [CloudCall.rmnode t.uuid t.token], released := [t] } := by
      rw [heq]
      simp [hres]
    refine ⟨by simp only [heq2], by simp only [heq2], fun _ => ?_,
      fun hr => absurd hres hr⟩
    exact ⟨by simp only [heq2], by simp only [heq2]⟩
  · have heq2 : msg_unregister h cloud m nextTag =
        { result := cloud.rmnodeResult, cred := none,
          map := (mapRemove m h).2, nextTag := nextTag,
          calls := [CloudCall.rmnode t.uuid t.token], released := [] } := by
      rw [heq]
      simp [hres]
    refine ⟨by simp only [heq2], by simp only [heq2],
      fun hr => absurd hr hres, fun _ => ?_⟩
    exact ⟨by simp only [heq2], by simp only [heq2]⟩

def c6w_cloud : CloudResp := ⟨0, "", "", 0, none, none, 0, 0, 0⟩

/-- Witness for the amended C6: rmnode succeeds, the trust is removed and
released. -/
theorem c6_unregister_amended_witness :
    (msg_unregister 1 c6w_cloud [(1, c6x_t)] 0).map =
      (mapRemove [(1, c6x_t)] 1).2 ∧
    (msg_unregister 1 c6w_cloud [(1, c6x_t)] 0).calls =
      [CloudCall.rmnode c6x_t.uuid c6x_t.token] ∧
    (msg_unregister 1 c6w_cloud [(1, c6x_t)] 0).result = KNOT_SUCCESS ∧
    (msg_unregister 1 c6w_cloud [(1, c6x_t)] 0).released = [c6x_t] := by
  have hmain := c6_unregister_amended 1 c6w_cloud [(1, c6x_t)] 0 c6x_t
    (by decide)
  exact ⟨hmain.1, hmain.2.1, hmain.2.2.1 (by decide)⟩

/-! ### Claim C5: unauthorised access -/

lemma msg_data_none {h : Int} {m : TrustMap} (hl : mapLookup m h = none)
    (sv : Nat → Nat → Nat → Int) (cloud : CloudResp) (d : knot_msg_data)
    (nextTag : Nat) :
    msg_data sv h cloud d m nextTag =
      { result := KNOT_CREDENTIAL_UNAUTHORIZED, cred := none, map := m,
        nextTag := nextTag, calls := [], released := [] } := by
  unfold msg_data
  rw [hl]

lemma msg_setdata_resp_none {h : Int} {m : TrustMap}
    (hl : mapLookup m h = none) (sv : Nat → Nat → Nat → Int)
    (cloud : CloudResp) (d : knot_msg_data) (nextTag : Nat) :
    msg_setdata_resp sv h cloud d m nextTag =
      { result := KNOT_CREDENTIAL_UNAUTHORIZED, cred := none, map := m,
        nextTag := nextTag, calls := [], released := [] } := by
  unfold msg_setdata_resp
  rw [hl]

lemma msg_schema_none {h : Int} {m : TrustMap} (hl : mapLookup m h = none)
    (cloud : CloudResp) (s : knot_msg_schema) (eof : Bool) (nextTag : Nat) :
    msg_schema h cloud s eof m nextTag =
      { result := KNOT_CREDENTIAL_UNAUTHORIZED, cred := none, map := m,
        nextTag := nextTag, calls := [], released := [] } := by
  unfold msg_schema
  rw [hl]

lemma msg_config_resp_none {h : Int} {m : TrustMap}
    (hl : mapLookup m h = none) (sid : Nat) (nextTag : Nat) :
    msg_config_resp h sid m nextTag =
      { result := KNOT_CREDENTIAL_UNAUTHORIZED, cred := none, map := m,
        nextTag := nextTag, calls := [], released := [] } := by
  unfold msg_config_resp
  rw [hl]

lemma msg_unregister_none {h : Int} {m : TrustMap}
    (hl : mapLookup m h = none) (cloud : CloudResp) (nextTag : Nat) :
    msg_unregister h cloud m nextTag =
      { result := KNOT_CREDENTIAL_UNAUTHORIZED, cred := none, map := m,
        nextTag := nextTag, calls := [], released := [] } := by
  have hr : mapRemove m h = (none, m) := by
    have h1 := mapRemove_fst m h
    rw [hl] at h1
    exact Prod.ext h1 (mapRemove_snd_of_lookup_none hl)
  unfold msg_unregister
  rw [hr]

/-- Claim C5 (confirmed): a structurally well-formed DATA, SCHEMA,
SCHEMA_END, CONFIG_RESP, DATA_RESP or UNREGISTER_REQ PDU on a handle that
has no trust yields result `KNOT_CREDENTIAL_UNAUTHORIZED`, leaves the
trust store untouched and makes no cloud call. -/
theorem c5_unauthorized (sv : Nat → Nat → Nat → Int) (h : Int)
    (cloud : CloudResp) (credPid : Int) (kreq : knot_msg) (omtu : Nat)
    (m : TrustMap) (nextTag : Nat)
    (hl : mapLookup m h = none)
    (homtu : ¬ omtu < KNOT_MSG_SIZE)
    (hty : kreq.hdr.type = KNOT_MSG_DATA ∨ kreq.hdr.type = KNOT_MSG_SCHEMA ∨
      kreq.hdr.type = KNOT_MSG_SCHEMA_END ∨
      kreq.hdr.type = KNOT_MSG_CONFIG_RESP ∨
      kreq.hdr.type = KNOT_MSG_DATA_RESP ∨
      kreq.hdr.type = KNOT_MSG_UNREGISTER_REQ) :
    (msg_process sv h cloud credPid kreq (2 + kreq.hdr.payload_len) omtu m
      nextTag).result = KNOT_CREDENTIAL_UNAUTHORIZED ∧
    (msg_process sv h cloud credPid kreq (2 + kreq.hdr.payload_len) omtu m
      nextTag).map = m ∧
    (msg_process sv h cloud credPid kreq (2 + kreq.hdr.payload_len) omtu m
      nextTag).nextTag = nextTag ∧
    (msg_process sv h cloud credPid kreq (2 + kreq.hdr.payload_len) omtu m
      nextTag).calls = [] := by
  unfold msg_process
  rw [if_neg homtu, if_neg (by omega : ¬ 2 + kreq.hdr.payload_len < 2),
    if_neg (fun hh => hh rfl)]
  rcases hty with hty | hty | hty | hty | hty | hty <;>
    simp [hty, KNOT_MSG_REGISTER_REQ, KNOT_MSG_UNREGISTER_REQ, KNOT_MSG_DATA,
      KNOT_MSG_AUTH_REQ, KNOT_MSG_SCHEMA, KNOT_MSG_SCHEMA_END,
      KNOT_MSG_CONFIG_RESP, KNOT_MSG_DATA_RESP, procReply, procSilent,
      msg_data_none hl, msg_schema_none hl, msg_config_resp_none hl,
      msg_setdata_resp_none hl, msg_unregister_none hl]

/-- Witness for C5: a DATA PDU on handle 1 with an empty trust map. -/
def c5w_kreq : knot_msg :=
  ⟨⟨KNOT_MSG_DATA, 3⟩, 0, [], "", "", ⟨0, ⟨0, 0, 0, []⟩⟩, ⟨1, [7, 7]⟩, 0⟩

def c5w_sv : Nat → Nat → Nat → Int := fun _ _ _ => 0

theorem c5_unauthorized_witness :
    (msg_process c5w_sv 1 c6w_cloud 0 c5w_kreq
      (2 + c5w_kreq.hdr.payload_len) 128 [] 0).result =
      KNOT_CREDENTIAL_UNAUTHORIZED ∧
    (msg_process c5w_sv 1 c6w_cloud 0 c5w_kreq
      (2 + c5w_kreq.hdr.payload_len) 128 [] 0).map = [] ∧
    (msg_process c5w_sv 1 c6w_cloud 0 c5w_kreq
      (2 + c5w_kreq.hdr.payload_len) 128 [] 0).nextTag = 0 ∧
    (msg_process c5w_sv 1 c6w_cloud 0 c5w_kreq
      (2 + c5w_kreq.hdr.payload_len) 128 [] 0).calls = [] :=
  c5_unauthorized c5w_sv 1 c6w_cloud 0 c5w_kreq 128 [] 0 (by decide)
    (by decide) (Or.inl (by decide))

/-! ### Claim C8: length discipline -/

/-- Claim C8 (confirmed): whenever the input is shorter than the 2-byte
header, or its total length differs from `2 + payload_len` as read from
header byte 1, `msg_process` returns a negative value — no octets to
transmit are reported, so no reply PDU is produced — and neither the
store nor the cloud is touched. -/
theorem c8_length_discipline (sv : Nat → Nat → Nat → Int) (h : Int)
    (cloud : CloudResp) (credPid : Int) (kreq : knot_msg)
    (ilen omtu : Nat) (m : TrustMap) (nextTag : Nat)
    (hbad : ilen < 2 ∨ ilen ≠ 2 + kreq.hdr.payload_len) :
    (msg_process sv h cloud credPid kreq ilen omtu m nextTag).ret < 0 ∧
    (msg_process sv h cloud credPid kreq ilen omtu m nextTag).map = m ∧
    (msg_process sv h cloud credPid kreq ilen omtu m nextTag).nextTag =
      nextTag ∧
    (msg_process sv h cloud credPid kreq ilen omtu m nextTag).calls = [] := by
  have hout : msg_process sv h cloud credPid kreq ilen omtu m nextTag =
      procEinval m nextTag := by
    unfold msg_process
    by_cases homtu : omtu < KNOT_MSG_SIZE
    · rw [if_pos homtu]
    · rw [if_neg homtu]
      by_cases h2 : ilen < 2
      · rw [if_pos h2]
      · rcases hbad with hb | hb
        · exact absurd hb h2
        · rw [if_neg h2, if_pos hb]
  rw [hout]
  exact ⟨by norm_num [procEinval, EINVAL], rfl, rfl, rfl⟩

/-- Witness for C8: a 5-byte input whose header announces a 9-byte
payload (total 11 ≠ 5). -/
theorem c8_length_discipline_witness :
    (msg_process c5w_sv 1 c6w_cloud 0
      (⟨⟨KNOT_MSG_DATA, 9⟩, 0, [], "", "", ⟨0, ⟨0, 0, 0, []⟩⟩, ⟨1, []⟩, 0⟩ :
        knot_msg) 5 128 [] 0).ret < 0 ∧
    (msg_process c5w_sv 1 c6w_cloud 0
      (⟨⟨KNOT_MSG_DATA, 9⟩, 0, [], "", "", ⟨0, ⟨0, 0, 0, []⟩⟩, ⟨1, []⟩, 0⟩ :
        knot_msg) 5 128 [] 0).map = [] ∧
    (msg_process c5w_sv 1 c6w_cloud 0
      (⟨⟨KNOT_MSG_DATA, 9⟩, 0, [], "", "", ⟨0, ⟨0, 0, 0, []⟩⟩, ⟨1, []⟩, 0⟩ :
        knot_msg) 5 128 [] 0).nextTag = 0 ∧
    (msg_process c5w_sv 1 c6w_cloud 0
      (⟨⟨KNOT_MSG_DATA, 9⟩, 0, [], "", "", ⟨0, ⟨0, 0, 0, []⟩⟩, ⟨1, []⟩, 0⟩ :
        knot_msg) 5 128 [] 0).calls = [] :=
  c8_length_discipline c5w_sv 1 c6w_cloud 0 _ 5 128 [] 0
    (Or.inr (by decide))

/-! ### Claim C3: register idempotence -/

def isMknode : CloudCall → Bool
  | CloudCall.mknode _ _ => true
  | _ => false

def c3x_kreq : knot_msg :=
  ⟨⟨KNOT_MSG_REGISTER_REQ, 9⟩, 5, [65], "", "", ⟨0, ⟨0, 0, 0, []⟩⟩,
    ⟨0, []⟩, 0⟩

def c3x_cloud1 : CloudResp := ⟨0, "u1", "t1", 0, none, none, 0, 0, 0⟩

def c3x_cloud2 : CloudResp := ⟨0, "u2", "t2", 0, none, none, 0, 0, 0⟩

def c3x_o1 : ProcOut := msg_process c5w_sv 1 c3x_cloud1 0 c3x_kreq 11 128 [] 0

def c3x_o2 : ProcOut :=
  msg_process c5w_sv 1 c3x_cloud2 0 c3x_kreq 11 128 c3x_o1.map c3x_o1.nextTag

/-- Claim C3 is false on the code when the transport reports peer pid 0
for both requests (e.g. the pid cannot be resolved): the first register
stores `INT32_MAX` in place of the zero pid (msg.c:691), so the second
identical REGISTER_REQ fails the `trust->pid == cred.pid` test, calls
`mknode` a second time, and returns different credentials. -/
theorem c3_counterexample :
    c3x_o1.cred = some ⟨"u1", "t1"⟩ ∧
    c3x_o2.cred = some ⟨"u2", "t2"⟩ ∧
    c3x_o1.cred ≠ c3x_o2.cred ∧
    ((c3x_o1.calls ++ c3x_o2.calls).filter isMknode).length = 2 := by
  refine ⟨by decide, by decide, by decide, by decide⟩

lemma procReply_result (rt : Nat) (o : MsgOut) :
    (procReply rt o).result = o.result := rfl

lemma procReply_cred (rt : Nat) (o : MsgOut) :
    (procReply rt o).cred = o.cred := rfl

lemma procReply_map (rt : Nat) (o : MsgOut) :
    (procReply rt o).map = o.map := rfl

lemma procReply_nextTag (rt : Nat) (o : MsgOut) :
    (procReply rt o).nextTag = o.nextTag := rfl

lemma procReply_calls (rt : Nat) (o : MsgOut) :
    (procReply rt o).calls = o.calls := rfl

lemma msg_process_register_eq (sv : Nat → Nat → Nat → Int) (h : Int)
    (cloud : CloudResp) (credPid : Int) {kreq : knot_msg} {omtu : Nat}
    (m : TrustMap) (nextTag : Nat) (homtu : ¬ omtu < KNOT_MSG_SIZE)
    (hty : kreq.hdr.type = KNOT_MSG_REGISTER_REQ) :
    msg_process sv h cloud credPid kreq (2 + kreq.hdr.payload_len) omtu m
      nextTag =
    procReply KNOT_MSG_REGISTER_RESP
      (msg_register h cloud credPid kreq (2 + kreq.hdr.payload_len) m
        nextTag) := by
  unfold msg_process
  rw [if_neg homtu, if_neg (by omega : ¬ 2 + kreq.hdr.payload_len < 2),
    if_neg (fun hh => hh rfl), if_pos hty]

lemma msg_register_trusted_eq {h : Int} {m : TrustMap} {t : Trust}
    {credPid : Int} {kreq : knot_msg} {ilen : Nat}
    (hlen : msg_register_has_valid_length ilen = true)
    (hname : msg_register_has_valid_device_name kreq = true)
    (hl : mapLookup m h = some t) (hid : kreq.reg_id = t.id)
    (hpid : t.pid = credPid) (cloud : CloudResp) (nextTag : Nat) :
    msg_register h cloud credPid kreq ilen m nextTag =
      { result := KNOT_SUCCESS, cred := some ⟨t.uuid, t.token⟩, map := m,
        nextTag := nextTag, calls := [], released := [] } := by
  unfold msg_register
  rw [hlen, hname, hl]
  simp [hid, hpid]

lemma msg_register_none_eq {h : Int} {m : TrustMap} {credPid : Int}
    {kreq : knot_msg} {ilen : Nat}
    (hlen : msg_register_has_valid_length ilen = true)
    (hname : msg_register_has_valid_device_name kreq = true)
    (hl : mapLookup m h = none) (cloud : CloudResp) (nextTag : Nat) :
    msg_register h cloud credPid kreq ilen m nextTag =
      msg_register_fresh h cloud credPid kreq m nextTag := by
  unfold msg_register
  rw [hlen, hname, hl]
  simp

lemma msg_register_fresh_ok_eq {cloud : CloudResp}
    (hmk : cloud.mknodeResult = KNOT_SUCCESS)
    (hsi : cloud.signinResult = KNOT_SUCCESS) (h : Int) (credPid : Int)
    (kreq : knot_msg) (m : TrustMap) (nextTag : Nat) :
    msg_register_fresh h cloud credPid kreq m nextTag =
      { result := KNOT_SUCCESS,
        cred := some ⟨cloud.mknodeUuid, cloud.mknodeToken⟩,
        map := mapInsert m h (trust_new nextTag cloud.mknodeUuid
          cloud.mknodeToken kreq.reg_id
          (if credPid ≠ 0 then credPid else INT32_MAX) true none none),
        nextTag := nextTag + 1,
        calls := [CloudCall.mknode (msg_register_get_device_name kreq)
          kreq.reg_id,
          CloudCall.signin cloud.mknodeUuid cloud.mknodeToken],
        released := [] } := by
  unfold msg_register_fresh
  simp [hmk, hsi]

/-- Claim C3, amended: the idempotent-reply clause holds as claimed, and
the "exactly one mknode across the pair" law holds provided the peer pid
the transport reports is *nonzero* — for pid 0 the stored pid is
`INT32_MAX` and the re-transmitted request registers afresh (see the
counterexample). -/
theorem c3_register_idempotent_amended (sv : Nat → Nat → Nat → Int) :
    (∀ (h : Int) (cloud : CloudResp) (credPid : Int) (kreq : knot_msg)
      (omtu : Nat) (m : TrustMap) (nextTag : Nat) (t : Trust),
      ¬ omtu < KNOT_MSG_SIZE →
      kreq.hdr.type = KNOT_MSG_REGISTER_REQ →
      msg_register_has_valid_length (2 + kreq.hdr.payload_len) = true →
      msg_register_has_valid_device_name kreq = true →
      mapLookup m h = some t → kreq.reg_id = t.id → t.pid = credPid →
      (msg_process sv h cloud credPid kreq (2 + kreq.hdr.payload_len) omtu m
        nextTag).cred = some ⟨t.uuid, t.token⟩ ∧
      (msg_process sv h cloud credPid kreq (2 + kreq.hdr.payload_len) omtu m
        nextTag).result = KNOT_SUCCESS ∧
      (msg_process sv h cloud credPid kreq (2 + kreq.hdr.payload_len) omtu m
        nextTag).calls = [] ∧
      (msg_process sv h cloud credPid kreq (2 + kreq.hdr.payload_len) omtu m
        nextTag).map = m) ∧
    (∀ (h : Int) (cloud1 cloud2 : CloudResp) (credPid : Int)
      (kreq : knot_msg) (omtu : Nat) (m : TrustMap) (nextTag : Nat),
      ¬ omtu < KNOT_MSG_SIZE →
      kreq.hdr.type = KNOT_MSG_REGISTER_REQ →
      msg_register_has_valid_length (2 + kreq.hdr.payload_len) = true →
      msg_register_has_valid_device_name kreq = true →
      credPid ≠ 0 → mapLookup m h = none →
      cloud1.mknodeResult = KNOT_SUCCESS →
      cloud1.signinResult = KNOT_SUCCESS →
      (msg_process sv h cloud1 credPid kreq (2 + kreq.hdr.payload_len) omtu m
        nextTag).cred = some ⟨cloud1.mknodeUuid, cloud1.mknodeToken⟩ ∧
      (msg_process sv h cloud2 credPid kreq (2 + kreq.hdr.payload_len) omtu
        (msg_process sv h cloud1 credPid kreq (2 + kreq.hdr.payload_len)
          omtu m nextTag).map
        (msg_process sv h cloud1 credPid kreq (2 + kreq.hdr.payload_len)
          omtu m nextTag).nextTag).cred =
        some ⟨cloud1.mknodeUuid, cloud1.mknodeToken⟩ ∧
      (((msg_process sv h cloud1 credPid kreq (2 + kreq.hdr.payload_len)
          omtu m nextTag).calls ++
        (msg_process sv h cloud2 credPid kreq (2 + kreq.hdr.payload_len)
          omtu
          (msg_process sv h cloud1 credPid kreq (2 + kreq.hdr.payload_len)
            omtu m nextTag).map
          (msg_process sv h cloud1 credPid kreq (2 + kreq.hdr.payload_len)
            omtu m nextTag).nextTag).calls).filter isMknode).length = 1) := by
  constructor
  · intro h cloud credPid kreq omtu m nextTag t homtu hty hlen hname hl hid
      hpid
    rw [msg_process_register_eq sv h cloud credPid m nextTag homtu hty,
      procReply_cred, procReply_result, procReply_calls, procReply_map,
      msg_register_trusted_eq hlen hname hl hid hpid cloud nextTag]
    exact ⟨rfl, rfl, rfl, rfl⟩
  · intro h cloud1 cloud2 credPid kreq omtu m nextTag homtu hty hlen hname
      hpid0 hl hmk hsi
    have hro1 : msg_register h cloud1 credPid kreq
        (2 + kreq.hdr.payload_len) m nextTag =
        { result := KNOT_SUCCESS,
          cred := some ⟨cloud1.mknodeUuid, cloud1.mknodeToken⟩,
          map := mapInsert m h (trust_new nextTag cloud1.mknodeUuid
            cloud1.mknodeToken kreq.reg_id credPid true none none),
          nextTag := nextTag + 1,
          calls := [CloudCall.mknode (msg_register_get_device_name kreq)
            kreq.reg_id,
            CloudCall.signin cloud1.mknodeUuid cloud1.mknodeToken],
          released := [] } := by
      rw [msg_register_none_eq hlen hname hl cloud1 nextTag,
        msg_register_fresh_ok_eq hmk hsi h credPid kreq m nextTag,
        if_pos hpid0]
    have ho1 := msg_process_register_eq sv h cloud1 credPid m nextTag homtu
      hty
    have hlook2 : mapLookup (msg_process sv h cloud1 credPid kreq
        (2 + kreq.hdr.payload_len) omtu m nextTag).map h =
        some (trust_new nextTag cloud1.mknodeUuid cloud1.mknodeToken
          kreq.reg_id credPid true none none) := by
      rw [ho1, procReply_map, hro1]
      exact mapLookup_mapInsert_self m h _
    have hro2 := msg_register_trusted_eq hlen hname hlook2
      (show kreq.reg_id = (trust_new nextTag cloud1.mknodeUuid
        cloud1.mknodeToken kreq.reg_id credPid true none none).id from rfl)
      (show (trust_new nextTag cloud1.mknodeUuid cloud1.mknodeToken
        kreq.reg_id credPid true none none).pid = credPid from rfl)
      cloud2
      (msg_process sv h cloud1 credPid kreq (2 + kreq.hdr.payload_len) omtu
        m nextTag).nextTag
    have ho2 := msg_process_register_eq sv h cloud2 credPid
      (msg_process sv h cloud1 credPid kreq (2 + kreq.hdr.payload_len) omtu
        m nextTag).map
      (msg_process sv h cloud1 credPid kreq (2 + kreq.hdr.payload_len) omtu
        m nextTag).nextTag homtu hty
    refine ⟨?_, ?_, ?_⟩
    · rw [ho1, procReply_cred, hro1]
    · rw [ho2, procReply_cred, hro2]
      rfl
    · have hc1 : (msg_process sv h cloud1 credPid kreq
          (2 + kreq.hdr.payload_len) omtu m nextTag).calls =
          [CloudCall.mknode (msg_register_get_device_name kreq) kreq.reg_id,
            CloudCall.signin cloud1.mknodeUuid cloud1.mknodeToken] := by
        rw [ho1, procReply_calls, hro1]
      have hc2 : (msg_process sv h cloud2 credPid kreq
          (2 + kreq.hdr.payload_len) omtu
          (msg_process sv h cloud1 credPid kreq (2 + kreq.hdr.payload_len)
            omtu m nextTag).map
          (msg_process sv h cloud1 credPid kreq (2 + kreq.hdr.payload_len)
            omtu m nextTag).nextTag).calls = [] := by
        rw [ho2, procReply_calls, hro2]
      rw [hc1, hc2]
      simp [isMknode]

def c3w_t : Trust := trust_new 0 "u1" "t1" 5 7 true none none

/-- Witness for the amended C3 at pid 7: the re-transmitted register is
answered from the stored trust, and across a fresh pair exactly one
mknode happens. -/
theorem c3_register_idempotent_amended_witness :
    ((msg_process c5w_sv 1 c3x_cloud1 7 c3x_kreq
        (2 + c3x_kreq.hdr.payload_len) 128 [(1, c3w_t)] 3).cred =
        some ⟨c3w_t.uuid, c3w_t.token⟩ ∧
      (msg_process c5w_sv 1 c3x_cloud1 7 c3x_kreq
        (2 + c3x_kreq.hdr.payload_len) 128 [(1, c3w_t)] 3).result =
        KNOT_SUCCESS ∧
      (msg_process c5w_sv 1 c3x_cloud1 7 c3x_kreq
        (2 + c3x_kreq.hdr.payload_len) 128 [(1, c3w_t)] 3).calls = [] ∧
      (msg_process c5w_sv 1 c3x_cloud1 7 c3x_kreq
        (2 + c3x_kreq.hdr.payload_len) 128 [(1, c3w_t)] 3).map =
        [(1, c3w_t)]) ∧
    ((msg_process c5w_sv 1 c3x_cloud1 7 c3x_kreq
        (2 + c3x_kreq.hdr.payload_len) 128 [] 0).cred =
        some ⟨c3x_cloud1.mknodeUuid, c3x_cloud1.mknodeToken⟩ ∧
      (msg_process c5w_sv 1 c3x_cloud2 7 c3x_kreq
        (2 + c3x_kreq.hdr.payload_len) 128
        (msg_process c5w_sv 1 c3x_cloud1 7 c3x_kreq
          (2 + c3x_kreq.hdr.payload_len) 128 [] 0).map
        (msg_process c5w_sv 1 c3x_cloud1 7 c3x_kreq
          (2 + c3x_kreq.hdr.payload_len) 128 [] 0).nextTag).cred =
        some ⟨c3x_cloud1.mknodeUuid, c3x_cloud1.mknodeToken⟩ ∧
      (((msg_process c5w_sv 1 c3x_cloud1 7 c3x_kreq
          (2 + c3x_kreq.hdr.payload_len) 128 [] 0).calls ++
        (msg_process c5w_sv 1 c3x_cloud2 7 c3x_kreq
          (2 + c3x_kreq.hdr.payload_len) 128
          (msg_process c5w_sv 1 c3x_cloud1 7 c3x_kreq
            (2 + c3x_kreq.hdr.payload_len) 128 [] 0).map
          (msg_process c5w_sv 1 c3x_cloud1 7 c3x_kreq
            (2 + c3x_kreq.hdr.payload_len) 128 [] 0).nextTag).calls).filter
        isMknode).length = 1) :=
  ⟨(c3_register_idempotent_amended c5w_sv).1 1 c3x_cloud1 7 c3x_kreq 128
      [(1, c3w_t)] 3 c3w_t (by decide) (by decide) (by decide) (by decide)
      (by decide) (by decide) (by decide),
    (c3_register_idempotent_amended c5w_sv).2 1 c3x_cloud1 c3x_cloud2 7
      c3x_kreq 128 [] 0 (by decide) (by decide) (by decide) (by decide)
      (by decide) (by decide) (by decide) (by decide)⟩

/-! ### Claim C4: the rollback lifecycle

The temporal claim needs a catalogue of how one processed PDU can change
the store: not at all, a fresh insert (register/auth), an in-place update
of the looked-up trust (schema/config-ack), or a removal (unregister). -/

lemma procSilent_map (o : MsgOut) : (procSilent o).map = o.map := rfl

lemma procSilent_nextTag (o : MsgOut) :
    (procSilent o).nextTag = o.nextTag := rfl

lemma msg_register_fresh_shape (h : Int) (cloud : CloudResp) (credPid : Int)
    (kreq : knot_msg) (m : TrustMap) (nextTag : Nat) :
    ((msg_register_fresh h cloud credPid kreq m nextTag).map = m ∧
      (msg_register_fresh h cloud credPid kreq m nextTag).nextTag =
        nextTag) ∨
    (∃ t, (msg_register_fresh h cloud credPid kreq m nextTag).map =
        mapInsert m h t ∧ t.tag = nextTag ∧
      (msg_register_fresh h cloud credPid kreq m nextTag).nextTag =
        nextTag + 1) := by
  unfold msg_register_fresh
  split
  · exact Or.inl ⟨rfl, rfl⟩
  · split
    · exact Or.inl ⟨rfl, rfl⟩
    · exact Or.inr ⟨_, rfl, rfl, rfl⟩

lemma msg_register_shape (h : Int) (cloud : CloudResp) (credPid : Int)
    (kreq : knot_msg) (ilen : Nat) (m : TrustMap) (nextTag : Nat) :
    ((msg_register h cloud credPid kreq ilen m nextTag).map = m ∧
      (msg_register h cloud credPid kreq ilen m nextTag).nextTag =
        nextTag) ∨
    (∃ t, (msg_register h cloud credPid kreq ilen m nextTag).map =
        mapInsert m h t ∧ t.tag = nextTag ∧
      (msg_register h cloud credPid kreq ilen m nextTag).nextTag =
        nextTag + 1) := by
  unfold msg_register
  split
  · exact Or.inl ⟨rfl, rfl⟩
  · split
    · split
      · exact Or.inl ⟨rfl, rfl⟩
      · exact msg_register_fresh_shape h cloud credPid kreq m nextTag
    · exact msg_register_fresh_shape h cloud credPid kreq m nextTag

lemma msg_auth_shape (h : Int) (cloud : CloudResp) (u k : String)
    (m : TrustMap) (nextTag : Nat) :
    ((msg_auth h cloud u k m nextTag).map = m ∧
      (msg_auth h cloud u k m nextTag).nextTag = nextTag) ∨
    (∃ t, (msg_auth h cloud u k m nextTag).map = mapInsert m h t ∧
      t.tag = nextTag ∧
      (msg_auth h cloud u k m nextTag).nextTag = nextTag + 1) := by
  unfold msg_auth
  split
  · exact Or.inl ⟨rfl, rfl⟩
  · split
    · exact Or.inl ⟨rfl, rfl⟩
    · split
      · exact Or.inl ⟨rfl, rfl⟩
      · exact Or.inr ⟨_, rfl, rfl, rfl⟩

lemma msg_schema_shape (h : Int) (cloud : CloudResp) (s : knot_msg_schema)
    (eof : Bool) (m : TrustMap) (nextTag : Nat) :
    ((msg_schema h cloud s eof m nextTag).map = m ∧
      (msg_schema h cloud s eof m nextTag).nextTag = nextTag) ∨
    (∃ t0 t, mapLookup m h = some t0 ∧
      (msg_schema h cloud s eof m nextTag).map = mapUpdate m h t ∧
      t.tag = t0.tag ∧ t.rollback = false ∧
      (msg_schema h cloud s eof m nextTag).nextTag = nextTag) := by
  cases hml : mapLookup m h with
  | none =>
    rw [msg_schema_none hml cloud s eof nextTag]
    exact Or.inl ⟨rfl, rfl⟩
  | some t =>
    have hfields := trust_schema_stage_fields t s
    cases eof with
    | false =>
      rw [msg_schema_noeof_eq hml cloud s nextTag]
      exact Or.inr ⟨t, trust_schema_stage t s, rfl, rfl, hfields.2.2.1,
        hfields.2.2.2, rfl⟩
    | true =>
      by_cases hres : cloud.schemaResult = KNOT_SUCCESS
      · rw [msg_schema_end_ok_eq hml hres s nextTag]
        exact Or.inr ⟨t, trust_sensor_schema_complete (trust_schema_stage t s),
          rfl, rfl, hfields.2.2.1, hfields.2.2.2, rfl⟩
      · rw [msg_schema_end_fail_eq hml hres s nextTag]
        exact Or.inr ⟨t, trust_sensor_schema_tmp_free (trust_schema_stage t s),
          rfl, rfl, hfields.2.2.1, hfields.2.2.2, rfl⟩

lemma msg_config_resp_shape (h : Int) (sid : Nat) (m : TrustMap)
    (nextTag : Nat) :
    ((msg_config_resp h sid m nextTag).map = m ∧
      (msg_config_resp h sid m nextTag).nextTag = nextTag) ∨
    (∃ t0 t, mapLookup m h = some t0 ∧
      (msg_config_resp h sid m nextTag).map = mapUpdate m h t ∧
      t.tag = t0.tag ∧ t.rollback = t0.rollback ∧
      (msg_config_resp h sid m nextTag).nextTag = nextTag) := by
  cases hml : mapLookup m h with
  | none =>
    rw [msg_config_resp_none hml sid nextTag]
    exact Or.inl ⟨rfl, rfl⟩
  | some t =>
    unfold msg_config_resp
    rw [hml]
    exact Or.inr ⟨t, _, rfl, rfl, rfl, rfl, rfl⟩

lemma msg_data_shape (sv : Nat → Nat → Nat → Int) (h : Int)
    (cloud : CloudResp) (d : knot_msg_data) (m : TrustMap) (nextTag : Nat) :
    (msg_data sv h cloud d m nextTag).map = m ∧
    (msg_data sv h cloud d m nextTag).nextTag = nextTag := by
  unfold msg_data
  split
  · exact ⟨rfl, rfl⟩
  · split
    · exact ⟨rfl, rfl⟩
    · split
      · exact ⟨rfl, rfl⟩
      · exact ⟨rfl, rfl⟩

lemma msg_setdata_resp_shape (sv : Nat → Nat → Nat → Int) (h : Int)
    (cloud : CloudResp) (d : knot_msg_data) (m : TrustMap) (nextTag : Nat) :
    (msg_setdata_resp sv h cloud d m nextTag).map = m ∧
    (msg_setdata_resp sv h cloud d m nextTag).nextTag = nextTag := by
  unfold msg_setdata_resp
  split
  · exact ⟨rfl, rfl⟩
  · split
    · exact ⟨rfl, rfl⟩
    · split
      · exact ⟨rfl, rfl⟩
      · split
        · exact ⟨rfl, rfl⟩
        · exact ⟨rfl, rfl⟩

lemma msg_unregister_shape (h : Int) (cloud : CloudResp) (m : TrustMap)
    (nextTag : Nat) :
    (msg_unregister h cloud m nextTag).map = (mapRemove m h).2 ∧
    (msg_unregister h cloud m nextTag).nextTag = nextTag := by
  generalize hE : msg_unregister h cloud m nextTag = o
  unfold msg_unregister at hE
  split at hE
  next m2 heq =>
    rw [← hE, heq]
    exact ⟨rfl, rfl⟩
  next t m2 heq =>
    split at hE <;>
      · rw [← hE, heq]
        exact ⟨rfl, rfl⟩

/-- What one `msg_process` call can do to the store: nothing, insert a
trust carrying the fresh tag, replace the looked-up trust by one with the
same tag whose `rollback` is false or inherited, or remove one entry. -/
lemma msg_process_shape (sv : Nat → Nat → Nat → Int) (h : Int)
    (cloud : CloudResp) (credPid : Int) (kreq : knot_msg)
    (ilen omtu : Nat) (m : TrustMap) (nextTag : Nat) :
    ((msg_process sv h cloud credPid kreq ilen omtu m nextTag).map = m ∧
      (msg_process sv h cloud credPid kreq ilen omtu m nextTag).nextTag =
        nextTag) ∨
    (∃ t, (msg_process sv h cloud credPid kreq ilen omtu m nextTag).map =
        mapInsert m h t ∧ t.tag = nextTag ∧
      (msg_process sv h cloud credPid kreq ilen omtu m nextTag).nextTag =
        nextTag + 1) ∨
    (∃ t0 t, mapLookup m h = some t0 ∧
      (msg_process sv h cloud credPid kreq ilen omtu m nextTag).map =
        mapUpdate m h t ∧
      t.tag = t0.tag ∧ (t.rollback = false ∨ t.rollback = t0.rollback) ∧
      (msg_process sv h cloud credPid kreq ilen omtu m nextTag).nextTag =
        nextTag) ∨
    ((msg_process sv h cloud credPid kreq ilen omtu m nextTag).map =
        (mapRemove m h).2 ∧
      (msg_process sv h cloud credPid kreq ilen omtu m nextTag).nextTag =
        nextTag) := by
  generalize hE : msg_process sv h cloud credPid kreq ilen omtu m nextTag = o
  unfold msg_process at hE
  split at hE
  · rw [← hE]
    exact Or.inl ⟨rfl, rfl⟩
  · split at hE
    · rw [← hE]
      exact Or.inl ⟨rfl, rfl⟩
    · split at hE
      · rw [← hE]
        exact Or.inl ⟨rfl, rfl⟩
      · split at hE
        · rw [← hE]
          rcases msg_register_shape h cloud credPid kreq ilen m nextTag with
            ⟨h1, h2⟩ | ⟨t, h1, h2, h3⟩
          · exact Or.inl ⟨by rw [procReply_map, h1],
              by rw [procReply_nextTag, h2]⟩
          · exact Or.inr (Or.inl ⟨t, by rw [procReply_map, h1], h2,
              by rw [procReply_nextTag, h3]⟩)
        · split at hE
          · rw [← hE]
            rcases msg_unregister_shape h cloud m nextTag with ⟨h1, h2⟩
            exact Or.inr (Or.inr (Or.inr ⟨by rw [procReply_map, h1],
              by rw [procReply_nextTag, h2]⟩))
          · split at hE
            · rw [← hE]
              rcases msg_data_shape sv h cloud kreq.data m nextTag with
                ⟨h1, h2⟩
              exact Or.inl ⟨by rw [procReply_map, h1],
                by rw [procReply_nextTag, h2]⟩
            · split at hE
              · rw [← hE]
                rcases msg_auth_shape h cloud kreq.auth_uuid kreq.auth_token
                  m nextTag with ⟨h1, h2⟩ | ⟨t, h1, h2, h3⟩
                · exact Or.inl ⟨by rw [procReply_map, h1],
                    by rw [procReply_nextTag, h2]⟩
                · exact Or.inr (Or.inl ⟨t, by rw [procReply_map, h1], h2,
                    by rw [procReply_nextTag, h3]⟩)
              · split at hE
                · rw [← hE]
                  rcases msg_schema_shape h cloud kreq.schema
                    (kreq.hdr.type = KNOT_MSG_SCHEMA_END) m nextTag with
                    ⟨h1, h2⟩ | ⟨t0, t, hml, h1, h2, h3, h4⟩
                  · exact Or.inl ⟨by rw [procReply_map, h1],
                      by rw [procReply_nextTag, h2]⟩
                  · exact Or.inr (Or.inr (Or.inl ⟨t0, t, hml,
                      by rw [procReply_map, h1], h2, Or.inl h3,
                      by rw [procReply_nextTag, h4]⟩))
                · split at hE
                  · rw [← hE]
                    rcases msg_config_resp_shape h kreq.item_sensor_id m
                      nextTag with ⟨h1, h2⟩ | ⟨t0, t, hml, h1, h2, h3, h4⟩
                    · exact Or.inl ⟨by rw [procSilent_map, h1],
                        by rw [procSilent_nextTag, h2]⟩
                    · exact Or.inr (Or.inr (Or.inl ⟨t0, t, hml,
                        by rw [procSilent_map, h1], h2, Or.inr h3,
                        by rw [procSilent_nextTag, h4]⟩))
                  · split at hE
                    · rw [← hE]
                      rcases msg_setdata_resp_shape sv h cloud kreq.data m
                        nextTag with ⟨h1, h2⟩
                      exact Or.inl ⟨by rw [procSilent_map, h1],
                        by rw [procSilent_nextTag, h2]⟩
                    · rw [← hE]
                      exact Or.inl ⟨rfl, rfl⟩

/-- Every trust in the store carries a tag older than the counter. -/
def tagFresh (s : SState) : Prop := ∀ p ∈ s.map, p.2.tag < s.nextTag

/-- No two entries of the store share a tag. -/
def tagDistinct (s : SState) : Prop :=
  s.map.Pairwise (fun a b => a.2.tag ≠ b.2.tag)

/-- "The trust with this tag can never again have `rollback = true`". -/
def rollbackDead (m : TrustMap) (tg : Nat) : Prop :=
  ∀ p ∈ m, p.2.tag = tg → p.2.rollback = false

lemma stepState_map (sv : Nat → Nat → Nat → Int) (s : SState) (i : StepIn) :
    (stepState sv s i).map =
      (msg_process sv i.h i.cloud i.credPid i.kreq i.ilen i.omtu s.map
        s.nextTag).map := rfl

lemma stepState_nextTag (sv : Nat → Nat → Nat → Int) (s : SState)
    (i : StepIn) :
    (stepState sv s i).nextTag =
      (msg_process sv i.h i.cloud i.credPid i.kreq i.ilen i.omtu s.map
        s.nextTag).nextTag := rfl

lemma mapUpdate_tag_pairwise {m : TrustMap} {h : Int} {t0 t : Trust}
    (hd : m.Pairwise (fun a b => a.2.tag ≠ b.2.tag))
    (hl : mapLookup m h = some t0) (ht : t.tag = t0.tag) :
    (mapUpdate m h t).Pairwise (fun a b => a.2.tag ≠ b.2.tag) := by
  induction m with
  | nil => simp [mapUpdate]
  | cons p rest ih =>
    rcases List.pairwise_cons.mp hd with ⟨hp, hrest⟩
    by_cases hph : p.1 = h
    · have ht0 : t0 = p.2 := by
        simp [mapLookup, hph] at hl
        exact hl.symm
      simp only [mapUpdate]
      rw [if_pos hph]
      refine List.pairwise_cons.mpr ⟨?_, hrest⟩
      intro b hb
      show t.tag ≠ b.2.tag
      rw [ht, ht0]
      exact hp b hb
    · have hl2 : mapLookup rest h = some t0 := by
        simpa [mapLookup, hph] using hl
      simp only [mapUpdate]
      rw [if_neg hph]
      refine List.pairwise_cons.mpr ⟨?_, ih hrest hl2⟩
      intro b hb
      rcases mem_mapUpdate hb with hbe | hbm
      · rw [hbe]
        show p.2.tag ≠ t.tag
        rw [ht]
        exact hp (h, t0) (mapLookup_mem hl2)
      · exact hp b hbm

lemma stepState_tagFresh (sv : Nat → Nat → Nat → Int) (s : SState)
    (i : StepIn) (hf : tagFresh s) : tagFresh (stepState sv s i) := by
  intro p hp
  rw [stepState_map sv s i] at hp
  rw [stepState_nextTag sv s i]
  rcases msg_process_shape sv i.h i.cloud i.credPid i.kreq i.ilen i.omtu
    s.map s.nextTag with ⟨h1, h2⟩ | ⟨t, h1, h2, h3⟩ |
    ⟨t0, t, hml, h1, h2, h3, h4⟩ | ⟨h1, h2⟩
  · rw [h1] at hp
    rw [h2]
    exact hf p hp
  · rw [h1] at hp
    rw [h3]
    rcases List.mem_cons.mp hp with hpe | hpm
    · rw [hpe]
      show t.tag < s.nextTag + 1
      rw [h2]
      exact Nat.lt_succ_self _
    · exact Nat.lt_succ_of_lt (hf p hpm)
  · rw [h1] at hp
    rw [h4]
    rcases mem_mapUpdate hp with hpe | hpm
    · rw [hpe]
      show t.tag < s.nextTag
      rw [h2]
      exact hf (i.h, t0) (mapLookup_mem hml)
    · exact hf p hpm
  · rw [h1] at hp
    rw [h2]
    exact hf p ((mapRemove_snd_sublist s.map i.h).subset hp)

lemma stepState_nextTag_le (sv : Nat → Nat → Nat → Int) (s : SState)
    (i : StepIn) : s.nextTag ≤ (stepState sv s i).nextTag := by
  rw [stepState_nextTag sv s i]
  rcases msg_process_shape sv i.h i.cloud i.credPid i.kreq i.ilen i.omtu
    s.map s.nextTag with ⟨h1, h2⟩ | ⟨t, h1, h2, h3⟩ |
    ⟨t0, t, hml, h1, h2, h3, h4⟩ | ⟨h1, h2⟩
  · rw [h2]
  · rw [h3]
    exact Nat.le_succ _
  · rw [h4]
  · rw [h2]

lemma stepState_tagDistinct (sv : Nat → Nat → Nat → Int) (s : SState)
    (i : StepIn) (hf : tagFresh s) (hd : tagDistinct s) :
    tagDistinct (stepState sv s i) := by
  unfold tagDistinct at *
  rw [stepState_map sv s i]
  rcases msg_process_shape sv i.h i.cloud i.credPid i.kreq i.ilen i.omtu
    s.map s.nextTag with ⟨h1, h2⟩ | ⟨t, h1, h2, h3⟩ |
    ⟨t0, t, hml, h1, h2, h3, h4⟩ | ⟨h1, h2⟩
  · rw [h1]
    exact hd
  · rw [h1]
    refine List.pairwise_cons.mpr ⟨?_, hd⟩
    intro b hb
    show t.tag ≠ b.2.tag
    rw [h2]
    have := hf b hb
    omega
  · rw [h1]
    exact mapUpdate_tag_pairwise hd hml h2
  · rw [h1]
    exact List.Pairwise.sublist (mapRemove_snd_sublist s.map i.h) hd

lemma stepState_rollbackDead (sv : Nat → Nat → Nat → Int) (s : SState)
    (i : StepIn) (tg : Nat) (htg : tg < s.nextTag)
    (hrd : rollbackDead s.map tg) :
    rollbackDead (stepState sv s i).map tg := by
  intro p hp hptag
  rw [stepState_map sv s i] at hp
  rcases msg_process_shape sv i.h i.cloud i.credPid i.kreq i.ilen i.omtu
    s.map s.nextTag with ⟨h1, h2⟩ | ⟨t, h1, h2, h3⟩ |
    ⟨t0, t, hml, h1, h2, h3, h4⟩ | ⟨h1, h2⟩
  · rw [h1] at hp
    exact hrd p hp hptag
  · rw [h1] at hp
    rcases List.mem_cons.mp hp with hpe | hpm
    · exfalso
      rw [hpe] at hptag
      have h5 : t.tag = tg := hptag
      omega
    · exact hrd p hpm hptag
  · rw [h1] at hp
    rcases mem_mapUpdate hp with hpe | hpm
    · have htag : t.tag = tg := by
        rw [hpe] at hptag
        exact hptag
      rcases h3 with h3 | h3
      · rw [hpe]
        exact h3
      · have h6 : t0.rollback = false := by
          refine hrd (i.h, t0) (mapLookup_mem hml) ?_
          show t0.tag = tg
          rw [← h2]
          exact htag
        rw [hpe]
        show t.rollback = false
        rw [h3]
        exact h6
    · exact hrd p hpm hptag
  · rw [h1] at hp
    exact hrd p ((mapRemove_snd_sublist s.map i.h).subset hp) hptag

lemma runSteps_tagInv (sv : Nat → Nat → Nat → Int) (l : List StepIn)
    (s : SState) (hf : tagFresh s) (hd : tagDistinct s) :
    tagFresh (runSteps sv s l) ∧ tagDistinct (runSteps sv s l) := by
  induction l generalizing s with
  | nil => exact ⟨hf, hd⟩
  | cons i l ih =>
    exact ih (stepState sv s i) (stepState_tagFresh sv s i hf)
      (stepState_tagDistinct sv s i hf hd)

lemma runSteps_rollbackDead (sv : Nat → Nat → Nat → Int) (l : List StepIn)
    (s : SState) (tg : Nat) (hf : tagFresh s) (htg : tg < s.nextTag)
    (hrd : rollbackDead s.map tg) :
    rollbackDead (runSteps sv s l).map tg := by
  induction l generalizing s with
  | nil => exact hrd
  | cons i l ih =>
    exact ih (stepState sv s i) (stepState_tagFresh sv s i hf)
      (lt_of_lt_of_le htg (stepState_nextTag_le sv s i))
      (stepState_rollbackDead sv s i tg htg hrd)

lemma rollbackDead_of_mem (s : SState) (hd : tagDistinct s) (k : Int)
    (t : Trust) (hmem : (k, t) ∈ s.map) (hfalse : t.rollback = false) :
    rollbackDead s.map t.tag := by
  intro p hp hptag
  by_cases hpe : p = (k, t)
  · rw [hpe]
    exact hfalse
  · exfalso
    have hR := List.Pairwise.forall
      (fun x y hxy => Ne.symm hxy) hd hp hmem hpe
    exact hR hptag

/-- Claim C4 (confirmed): (1) a successful fresh REGISTER_REQ inserts its
trust with `rollback = true`; (2) processing any SCHEMA or SCHEMA_END on
a trust leaves that same trust (same tag) with `rollback = false`;
(3) never-again: starting from any reachable state, once a trust in the
store has `rollback = false`, after any further sequence of PDUs every
store entry carrying that trust's tag still has `rollback = false` — no
operation of the state machine ever sets rollback back to true for that
trust. -/
theorem c4_rollback_lifecycle (sv : Nat → Nat → Nat → Int) :
    (∀ (h : Int) (cloud : CloudResp) (credPid : Int) (kreq : knot_msg)
      (ilen : Nat) (m : TrustMap) (nextTag : Nat),
      mapLookup m h = none →
      msg_register_has_valid_length ilen = true →
      msg_register_has_valid_device_name kreq = true →
      cloud.mknodeResult = KNOT_SUCCESS → cloud.signinResult = KNOT_SUCCESS →
      (mapLookup (msg_register h cloud credPid kreq ilen m nextTag).map
        h).map Trust.rollback = some true) ∧
    (∀ (h : Int) (cloud : CloudResp) (s : knot_msg_schema) (eof : Bool)
      (m : TrustMap) (nextTag : Nat) (t : Trust),
      mapLookup m h = some t →
      (mapLookup (msg_schema h cloud s eof m nextTag).map h).map
        (fun x => (x.rollback, x.tag)) = some (false, t.tag)) ∧
    (∀ (pre post : List StepIn) (k : Int) (t : Trust),
      (k, t) ∈ (runSteps sv msg_start pre).map → t.rollback = false →
      ∀ p ∈ (runSteps sv (runSteps sv msg_start pre) post).map,
        p.2.tag = t.tag → p.2.rollback = false) := by
  refine ⟨?_, ?_, ?_⟩
  · intro h cloud credPid kreq ilen m nextTag hl hlen hname hmk hsi
    rw [msg_register_none_eq hlen hname hl cloud nextTag,
      msg_register_fresh_ok_eq hmk hsi h credPid kreq m nextTag]
    simp [mapLookup_mapInsert_self, trust_new]
  · intro h cloud s eof m nextTag t hl
    have hfields := trust_schema_stage_fields t s
    cases eof with
    | false =>
      rw [msg_schema_noeof_eq hl cloud s nextTag]
      simp [mapLookup_mapUpdate_self hl, hfields.2.2.1, hfields.2.2.2]
    | true =>
      by_cases hres : cloud.schemaResult = KNOT_SUCCESS
      · rw [msg_schema_end_ok_eq hl hres s nextTag]
        simp [mapLookup_mapUpdate_self hl, trust_sensor_schema_complete,
          hfields.2.2.1, hfields.2.2.2]
      · rw [msg_schema_end_fail_eq hl hres s nextTag]
        simp [mapLookup_mapUpdate_self hl, trust_sensor_schema_tmp_free,
          hfields.2.2.1, hfields.2.2.2]
  · intro pre post k t hmem hfalse
    have hinv := runSteps_tagInv sv pre msg_start
      (fun p hp => absurd hp (List.not_mem_nil p))
      List.Pairwise.nil
    have htg : t.tag < (runSteps sv msg_start pre).nextTag :=
      hinv.1 (k, t) hmem
    have hrd := rollbackDead_of_mem (runSteps sv msg_start pre) hinv.2 k t
      hmem hfalse
    exact runSteps_rollbackDead sv post (runSteps sv msg_start pre) t.tag
      hinv.1 htg hrd

def c4w_auth_cloud : CloudResp := ⟨0, "", "", 0, some [], none, 0, 0, 0⟩

def c4w_kreq_auth : knot_msg :=
  ⟨⟨KNOT_MSG_AUTH_REQ, 76⟩, 0, [], "au", "at", ⟨0, ⟨0, 0, 0, []⟩⟩,
    ⟨0, []⟩, 0⟩

def c4w_step_auth : StepIn := ⟨1, c4w_auth_cloud, 0, c4w_kreq_auth, 78, 128⟩

def c4w_schema : knot_msg_schema := ⟨2, ⟨1, 1, 1, []⟩⟩

def c4w_kreq_schema : knot_msg :=
  ⟨⟨KNOT_MSG_SCHEMA, 6⟩, 0, [], "", "", c4w_schema, ⟨0, []⟩, 0⟩

def c4w_step_schema : StepIn :=
  ⟨1, c4w_auth_cloud, 0, c4w_kreq_schema, 8, 128⟩

def c4w_t : Trust := trust_new 0 "au" "at" 0 0 false (some []) none

def c4w_t2 : Trust :=
  { c4w_t with rollback := false, schema_tmp := some [c4w_schema] }

/-- Witness for C4: a fresh register stores `rollback = true`; a SCHEMA
on a stored trust stores `rollback = false` with the same tag; and after
an auth followed by a schema PDU the surviving trust with the auth
trust's tag still has `rollback = false`. -/
theorem c4_rollback_lifecycle_witness :
    ((mapLookup (msg_register 1 c3x_cloud1 0 c3x_kreq 11 [] 0).map 1).map
      Trust.rollback = some true) ∧
    ((mapLookup (msg_schema 1 c4w_auth_cloud c4w_schema false [(1, c3w_t)]
        9).map 1).map (fun x => (x.rollback, x.tag)) =
      some (false, c3w_t.tag)) ∧
    c4w_t2.rollback = false :=
  ⟨(c4_rollback_lifecycle c5w_sv).1 1 c3x_cloud1 0 c3x_kreq 11 [] 0
      (by decide) (by decide) (by decide) (by decide) (by decide),
    (c4_rollback_lifecycle c5w_sv).2.1 1 c4w_auth_cloud c4w_schema false
      [(1, c3w_t)] 9 c3w_t (by decide),
    (c4_rollback_lifecycle c5w_sv).2.2 [c4w_step_auth] [c4w_step_schema] 1
      c4w_t (by decide) (by decide) (1, c4w_t2) (by decide) (by decide)⟩
